import Mathlib

/-! AppleMIDI interface layer (lwIP variant): dual-socket UDP transport

A shallow embedding of `components/applemidi/if/lwip/applemidi_if.c`.

* The static array `applemidi_if_socket[APPLEMIDI_IF_NUM_SOCKETS]` is the `State`.
* Every API function takes the state and the answers the operating system gives to
  the calls it makes, and returns the new state, the return value and the ordered
  list of external calls it issued (`Event`): socket calls, console output and the
  invocation of the datagram handler.
* `int`/`int32_t` values are `Int`; `uint16_t`/`uint32_t`/`uint8_t` values are `Nat`
  with explicit reduction where the C code truncates.
-/

namespace AppleMidiIf

/-! ## Platform -/

/-- Constants of the lwIP socket API which the source uses and the repository does
not define; they are parameters of the embedding. -/
structure Consts where
  AF_INET : Int
  SOCK_DGRAM : Int
  IPPROTO_IP : Int
  O_NONBLOCK : Int
  EWOULDBLOCK : Int
  deriving DecidableEq, Repr

/-- Modelled from the spec: `htons` is lwIP's 16-bit host/network byte-order
conversion, which is not part of this repository; on the little-endian ESP32 it
swaps the two bytes of the (truncated) 16-bit argument. -/
def htons (x : Nat) : Nat := (x % 256) * 256 + (x / 256) % 256

/-- Modelled from the spec: `htonl` is lwIP's 32-bit host/network byte-order
conversion, which is not part of this repository; on the little-endian ESP32 it
reverses the four bytes of the (truncated) 32-bit argument. -/
def htonl (x : Nat) : Nat :=
  (x % 256) * 16777216 + ((x / 256) % 256) * 65536 + ((x / 65536) % 256) * 256
    + (x / 16777216) % 256

/-- Modelled from the spec: `INADDR_ANY` is the wildcard address ("bound on all
local interfaces"); the lwIP header defining it is not part of this repository. -/
def INADDR_ANY : Nat := 0

/-- Constant `APPLEMIDI_IF_MAX_PACKET_SIZE` of `applemidi_if.h`. -/
def APPLEMIDI_IF_MAX_PACKET_SIZE : Nat := 1472

/-- Enumerator `APPLEMIDI_IF_SOCKET_CONTROL` of `applemidi_if_socket_e`. -/
def APPLEMIDI_IF_SOCKET_CONTROL : Nat := 0

/-- Enumerator `APPLEMIDI_IF_SOCKET_DATA` of `applemidi_if_socket_e`. -/
def APPLEMIDI_IF_SOCKET_DATA : Nat := 1

/-- Enumerator `APPLEMIDI_IF_NUM_SOCKETS` of `applemidi_if_socket_e`. -/
def APPLEMIDI_IF_NUM_SOCKETS : Nat := 2

/-! ## Data model -/

/-- The members of `struct sockaddr_in` which the source reads or writes:
`sin_family`, `sin_port` (network byte order) and `sin_addr.s_addr` (32-bit word
whose bytes in memory are the four address bytes). -/
structure sockaddr_in where
  sin_family : Int
  sin_port : Nat
  sin_addr : Nat
  deriving DecidableEq, Repr

/-- One entry of the socket table: `applemidi_if_socket_t`. -/
structure applemidi_if_socket_t where
  handle : Int
  socket_addr : sockaddr_in
  deriving DecidableEq, Repr

/-- The static array `applemidi_if_socket[APPLEMIDI_IF_NUM_SOCKETS]`: entry 0 is the
Control socket, entry 1 the Data socket. -/
structure State where
  control : applemidi_if_socket_t
  data : applemidi_if_socket_t
  deriving DecidableEq, Repr

/-- Read `applemidi_if_socket[i]`. -/
def State.get (st : State) (i : Nat) : applemidi_if_socket_t :=
  if i = APPLEMIDI_IF_SOCKET_CONTROL then st.control else st.data

/-- Write `applemidi_if_socket[i]`. -/
def State.set (st : State) (i : Nat) (s : applemidi_if_socket_t) : State :=
  if i = APPLEMIDI_IF_SOCKET_CONTROL then { st with control := s } else { st with data := s }

/-- The result of `memset(s, 0, sizeof(applemidi_if_socket_t))`. -/
def zero_socket : applemidi_if_socket_t := ⟨0, ⟨0, 0, 0⟩⟩

/-- Zero-initialised static storage: the table before the first call of the API. -/
def initial_state : State := ⟨zero_socket, zero_socket⟩

/-- Four bytes in memory order, as pointed to by a `uint8_t *ip_addr`. -/
structure ip4 where
  b0 : Nat
  b1 : Nat
  b2 : Nat
  b3 : Nat
  deriving DecidableEq, Repr

/-- The 32-bit word obtained by `memcpy(&s_addr, ip_addr, 4)` on the little-endian
target. -/
def memcpy_ip (a : ip4) : Nat :=
  a.b0 % 256 + (a.b1 % 256) * 256 + (a.b2 % 256) * 65536 + (a.b3 % 256) * 16777216

/-- The four bytes seen through `(uint8_t *)&s_addr` on the little-endian target. -/
def bytes_of (w : Nat) : ip4 :=
  ⟨w % 256, (w / 256) % 256, (w / 65536) % 256, (w / 16777216) % 256⟩

/-! ## External calls -/

/-- The `"Control"` / `"Data"` string argument of the receive diagnostics. -/
inductive RoleName where
  | Control
  | Data
  deriving DecidableEq, Repr

/-- The word printed by the status lines of `cmd_info`. -/
inductive UpDown where
  | up
  | down
  deriving DecidableEq, Repr

/-- One `printf` of the source with its arguments, named after its format string. -/
inductive LogMsg where
  /-- Format `"Unable to create socket #%d: errno %d\n"`. -/
  | unable_to_create_socket (i : Nat) (errno : Int)
  /-- Format `"Unable to bind socket #%d: errno %d\n"`. -/
  | unable_to_bind_socket (i : Nat) (errno : Int)
  /-- Format `"sending %d bytes to %d.%d.%d.%d:%d\n"`. -/
  | sending (tx_len : Nat) (a0 a1 a2 a3 : Nat) (port : Nat)
  /-- Format `"Failed to send datagram to %d.%d.%d.%d:%d - errno %d\n"`. -/
  | failed_to_send (a0 a1 a2 a3 : Nat) (port : Nat) (errno : Int)
  /-- Format `"recvfrom of %s socket failed: errno %d\n"`. -/
  | recvfrom_failed (role : RoleName) (errno : Int)
  /-- Format `"%s socket received %d bytes from %d.%d.%d.%d:%d\n"`. -/
  | received (role : RoleName) (rx_len : Int) (a0 a1 a2 a3 : Nat) (port : Nat)
  /-- Format `"Control UDP Socket: %s\n"`. -/
  | control_udp_socket (s : UpDown)
  /-- Format `"Data UDP Socket: %s\n"`. -/
  | data_udp_socket (s : UpDown)
  deriving DecidableEq, Repr

/-- What `recvfrom` answers: its return value, `errno`, and, when the return value is
not negative, the bytes it stored in the buffer and the sender address it stored in
the address argument. On failure it stores nothing. -/
structure RecvOutcome where
  ret : Int
  errno : Int
  data : List Nat
  src : sockaddr_in
  deriving DecidableEq, Repr

/-- An external call issued by the layer, with its arguments (and, for calls whose
result the code uses, the result). `recvfrom` records through `addr_of` which table
entry's `socket_addr` was passed as the sender-address buffer, and what the call
answered. -/
inductive Event where
  | socket (domain ty protocol : Int) (ret : Int)
  | fcntl_getfl (fd : Int) (ret : Int)
  | fcntl_setfl (fd : Int) (flags : Int)
  | bind (fd : Int) (addr : sockaddr_in) (ret : Int)
  | shutdown (fd : Int) (how : Int)
  | close (fd : Int)
  | sendto (fd : Int) (buf : List Nat) (len : Nat) (flags : Int) (dest : sockaddr_in)
      (ret : Int)
  | recvfrom (fd : Int) (bufsize : Nat) (flags : Int) (addr_of : Nat) (out : RecvOutcome)
  | printf (m : LogMsg)
  | esp_log_buffer_hex (buf : List Nat) (len : Int)
  | parse_udp_datagram (ip_addr : ip4) (port : Nat) (rx_data : List Nat) (rx_len : Nat)
      (is_dataport : Nat)
  deriving DecidableEq, Repr

/-- Return value of an OS call together with the value of `errno` after it. -/
structure OsRet where
  ret : Int
  errno : Int
  deriving DecidableEq, Repr

/-- What the OS answers to the calls of one `applemidi_if_init`: `socket i` is the
answer to the `socket()` call of loop iteration `i`, `fcntl_getfl fd` the flag word
returned by `F_GETFL`, `bind addr` the answer to binding a socket to `addr` (the two
iterations bind different ports, so the answers are independent). -/
structure InitOS where
  socket : Nat → OsRet
  fcntl_getfl : Int → Int
  bind : sockaddr_in → OsRet

/-- State, issued calls and return value of one API call. -/
structure Outcome where
  state : State
  trace : List Event
  ret : Int
  deriving DecidableEq, Repr

/-! ## The loop over the socket table -/

/-- The loop `for(i=0; i<APPLEMIDI_IF_NUM_SOCKETS; ++i, ++s)` with `n` iterations
left and the next index `i`. A body answering `some r` leaves the loop at once
(`return r` or `break`); the traces of the iterations are concatenated. -/
def for_sockets {ε : Type} (body : Nat → State → State × List Event × Option ε) :
    Nat → Nat → State → State × List Event × Option ε
  | 0, _, st => (st, [], none)
  | n + 1, i, st =>
    match body i st with
    | (st1, ev, some r) => (st1, ev, some r)
    | (st1, ev, none) =>
      match for_sockets body n (i + 1) st1 with
      | (st2, ev2, r) => (st2, ev ++ ev2, r)

/-! ## applemidi_if_init -/

/-- The address `applemidi_if_init` stores for iteration `i`: family `AF_INET`,
`htonl(INADDR_ANY)`, and `htons(rx_port)` with `uint16_t rx_port = port + i`. -/
def init_addr (c : Consts) (port i : Nat) : sockaddr_in :=
  ⟨c.AF_INET, htons ((port + i) % 65536), htonl INADDR_ANY⟩

/-- One iteration of the loop of `applemidi_if_init`. -/
def init_body (c : Consts) (lvl : Nat) (os : InitOS) (port : Nat) (i : Nat) (st : State) :
    State × List Event × Option Int :=
  let addr := init_addr c port i
  let sk := os.socket i
  let s1 : applemidi_if_socket_t := { zero_socket with socket_addr := addr, handle := sk.ret }
  let e_socket := [Event.socket c.AF_INET c.SOCK_DGRAM c.IPPROTO_IP sk.ret]
  if sk.ret < 0 then
    (st.set i s1,
      e_socket ++ (if lvl ≥ 1 then [Event.printf (.unable_to_create_socket i sk.errno)] else []),
      some (-1))
  else
    let fl := os.fcntl_getfl sk.ret
    let e_fcntl := [Event.fcntl_getfl sk.ret fl, Event.fcntl_setfl sk.ret (Int.lor fl c.O_NONBLOCK)]
    let b := os.bind addr
    let e_bind := [Event.bind sk.ret addr b.ret]
    if b.ret < 0 then
      (st.set i { s1 with handle := -1 },
        e_socket ++ e_fcntl ++ e_bind ++ [Event.close sk.ret]
          ++ (if lvl ≥ 1 then [Event.printf (.unable_to_bind_socket i b.errno)] else []),
        some (-2))
    else
      (st.set i s1, e_socket ++ e_fcntl ++ e_bind, none)

/-- The function `applemidi_if_init(uint16_t port)`. -/
def applemidi_if_init (c : Consts) (lvl : Nat) (os : InitOS) (port : Nat) (st : State) :
    Outcome :=
  match for_sockets (init_body c lvl os port) APPLEMIDI_IF_NUM_SOCKETS 0 st with
  | (st1, ev, some r) => ⟨st1, ev, r⟩
  | (st1, ev, none) => ⟨st1, ev, 0⟩

/-! ## applemidi_if_deinit -/

/-- One iteration of the loop of `applemidi_if_deinit`. -/
def deinit_body (i : Nat) (st : State) : State × List Event × Option Int :=
  let s := st.get i
  if s.handle ≥ 0 then
    (st.set i { s with handle := -1 }, [Event.shutdown s.handle 0, Event.close s.handle], none)
  else
    (st, [], none)

/-- The function `applemidi_if_deinit(void)`. -/
def applemidi_if_deinit (st : State) : Outcome :=
  match for_sockets deinit_body APPLEMIDI_IF_NUM_SOCKETS 0 st with
  | (st1, ev, _) => ⟨st1, ev, 0⟩

/-! ## applemidi_if_send_udp_datagram -/

/-- Index of the table entry chosen by the conditional expression at the head of
`applemidi_if_send_udp_datagram`. -/
def select_socket (st : State) (port : Nat) : Nat :=
  if port = htons (st.get APPLEMIDI_IF_SOCKET_CONTROL).socket_addr.sin_port then
    APPLEMIDI_IF_SOCKET_CONTROL
  else
    APPLEMIDI_IF_SOCKET_DATA

/-- The local `tx_socket_addr` of `applemidi_if_send_udp_datagram`: a copy of the
selected entry's address with the address word and the port overwritten. -/
def tx_socket_addr (s : applemidi_if_socket_t) (ip_addr : ip4) (port : Nat) : sockaddr_in :=
  { s.socket_addr with sin_addr := memcpy_ip ip_addr, sin_port := htons port }

/-- The function `applemidi_if_send_udp_datagram(ip_addr, port, tx_data, tx_len)`;
`os` is the answer of `sendto` should it be called. -/
def applemidi_if_send_udp_datagram (lvl : Nat) (os : OsRet) (ip_addr : ip4) (port : Nat)
    (tx_data : List Nat) (tx_len : Nat) (st : State) : Outcome :=
  let s := st.get (select_socket st port)
  if s.handle < 0 then
    ⟨st, [], -1⟩
  else
    let tx := tx_socket_addr s ip_addr port
    let e_dbg :=
      (if lvl ≥ 2 then
        [Event.printf (.sending tx_len ((tx.sin_addr &&& 0x000000ff) >>> 0)
          ((tx.sin_addr &&& 0x0000ff00) >>> 8) ((tx.sin_addr &&& 0x00ff0000) >>> 16)
          ((tx.sin_addr &&& 0xff000000) >>> 24) (htons tx.sin_port))]
      else [])
      ++ (if lvl ≥ 3 then [Event.esp_log_buffer_hex tx_data tx_len] else [])
    let e_send := [Event.sendto s.handle tx_data tx_len 0 tx os.ret]
    if os.ret < 0 then
      ⟨st,
        e_dbg ++ e_send
          ++ (if lvl ≥ 1 then
              [Event.printf (.failed_to_send ((tx.sin_addr &&& 0x000000ff) >>> 0)
                ((tx.sin_addr &&& 0x0000ff00) >>> 8) ((tx.sin_addr &&& 0x00ff0000) >>> 16)
                ((tx.sin_addr &&& 0xff000000) >>> 24) (htons tx.sin_port) os.errno)]
            else []),
        -2⟩
    else
      ⟨st, e_dbg ++ e_send, 0⟩

/-! ## applemidi_if_tick -/

/-- The string chosen by `i == APPLEMIDI_IF_SOCKET_CONTROL ? "Control" : "Data"`. -/
def role_name (i : Nat) : RoleName :=
  if i = APPLEMIDI_IF_SOCKET_CONTROL then .Control else .Data

/-- The value of `uint8_t is_dataport = i == APPLEMIDI_IF_SOCKET_DATA`. -/
def is_dataport (i : Nat) : Nat := if i = APPLEMIDI_IF_SOCKET_DATA then 1 else 0

/-- One iteration of the loop of `applemidi_if_tick`; `os i` is the answer of the
`recvfrom` call of iteration `i`. Leaving the loop by `break` is `some ()`. -/
def tick_body (c : Consts) (lvl : Nat) (os : Nat → RecvOutcome) (i : Nat) (st : State) :
    State × List Event × Option Unit :=
  let s := st.get i
  let r := os i
  let e_recv := [Event.recvfrom s.handle APPLEMIDI_IF_MAX_PACKET_SIZE 0 i r]
  if r.ret < 0 then
    if r.errno ≠ c.EWOULDBLOCK then
      (st,
        e_recv ++ (if lvl ≥ 1 then [Event.printf (.recvfrom_failed (role_name i) r.errno)] else []),
        some ())
    else
      (st, e_recv, none)
  else
    let s1 : applemidi_if_socket_t := { s with socket_addr := r.src }
    let a := s1.socket_addr
    (st.set i s1,
      e_recv
        ++ (if lvl ≥ 2 then
            [Event.printf (.received (role_name i) r.ret ((a.sin_addr &&& 0x000000ff) >>> 0)
              ((a.sin_addr &&& 0x0000ff00) >>> 8) ((a.sin_addr &&& 0x00ff0000) >>> 16)
              ((a.sin_addr &&& 0xff000000) >>> 24) (htons a.sin_port))]
          else [])
        ++ (if lvl ≥ 3 then [Event.esp_log_buffer_hex r.data r.ret] else [])
        ++ [Event.parse_udp_datagram (bytes_of a.sin_addr) (htons a.sin_port) r.data
              r.ret.toNat (is_dataport i)],
      none)

/-- The function `applemidi_if_tick(void *_parse_udp_datagram)`; the handler is an
external call recorded in the trace, its result is discarded. -/
def applemidi_if_tick (c : Consts) (lvl : Nat) (os : Nat → RecvOutcome) (st : State) :
    Outcome :=
  match for_sockets (tick_body c lvl os) APPLEMIDI_IF_NUM_SOCKETS 0 st with
  | (st1, ev, _) => ⟨st1, ev, 0⟩

/-! ## cmd_info -/

/-- The two socket status lines printed at the head of `cmd_info`. -/
def cmd_info (st : State) : List Event :=
  [Event.printf (.control_udp_socket
      (if (st.get APPLEMIDI_IF_SOCKET_CONTROL).handle ≥ 0 then .up else .down)),
   Event.printf (.data_udp_socket
      (if (st.get APPLEMIDI_IF_SOCKET_CONTROL).handle ≥ 0 then .up else .down))]

/-! ## Call sequences -/

/-- One call of the API, with the answers of the OS to the calls it makes. -/
inductive Call where
  | init (os : InitOS) (port : Nat)
  | deinit
  | send (os : OsRet) (ip_addr : ip4) (port : Nat) (tx_data : List Nat) (tx_len : Nat)
  | tick (os : Nat → RecvOutcome)

/-- Run one call of the API. -/
def run_call (c : Consts) (lvl : Nat) : Call → State → Outcome
  | .init os port, st => applemidi_if_init c lvl os port st
  | .deinit, st => applemidi_if_deinit st
  | .send os ip_addr port tx_data tx_len, st =>
      applemidi_if_send_udp_datagram lvl os ip_addr port tx_data tx_len st
  | .tick os, st => applemidi_if_tick c lvl os st

/-- The state after a sequence of API calls. -/
def run_calls (c : Consts) (lvl : Nat) (calls : List Call) (st : State) : State :=
  calls.foldl (fun s k => (run_call c lvl k s).state) st

/-! ## Observations on traces and states -/

/-- The table entry is open in the sense of the layer: `handle >= 0`. -/
def is_open (s : applemidi_if_socket_t) : Bool := decide (0 ≤ s.handle)

/-- The `sendto` calls of a trace. -/
def sendto_calls (tr : List Event) : List Event :=
  tr.filter (fun e => match e with
    | .sendto _ _ _ _ _ _ => true
    | _ => false)

/-- The `close` and `shutdown` calls of a trace. -/
def close_calls (tr : List Event) : List Event :=
  tr.filter (fun e => match e with
    | .close _ => true
    | .shutdown _ _ => true
    | _ => false)

/-- The `socket` and `bind` calls of a trace. -/
def socket_bind_calls (tr : List Event) : List Event :=
  tr.filter (fun e => match e with
    | .socket _ _ _ _ => true
    | .bind _ _ _ => true
    | _ => false)

/-- The handler invocations of a trace made for table entry `i`, recognised by their
`is_dataport` argument. -/
def handler_calls (i : Nat) (tr : List Event) : List Event :=
  tr.filter (fun e => match e with
    | .parse_udp_datagram _ _ _ _ d => decide (d = is_dataport i)
    | _ => false)

/-- A receive or a handler invocation, for table entry `i`. -/
inductive PollStep where
  | receive (i : Nat)
  | handler (is_dataport : Nat)
  deriving DecidableEq, Repr

/-- The receive calls and handler invocations of a trace, in order. -/
def poll_steps (tr : List Event) : List PollStep :=
  tr.filterMap (fun e => match e with
    | .recvfrom _ _ _ i _ => some (.receive i)
    | .parse_udp_datagram _ _ _ _ d => some (.handler d)
    | _ => none)

/-- The trace sets the descriptor `fd` non-blocking: it holds an `F_SETFL` on `fd`
whose flag word has every bit of `O_NONBLOCK`. -/
def sets_nonblocking (c : Consts) (fd : Int) (tr : List Event) : Prop :=
  ∃ flags, Event.fcntl_setfl fd flags ∈ tr ∧
    ∀ k, c.O_NONBLOCK.testBit k = true → flags.testBit k = true

/-- The OS lets a socket be bound to the wildcard address on port `p`. -/
def can_bind (c : Consts) (os : InitOS) (p : Nat) : Prop :=
  0 ≤ (os.bind ⟨c.AF_INET, htons p, htonl INADDR_ANY⟩).ret

/-- Specification: `p` is a port, a number below 65536, and the OS lets a socket be
bound to the wildcard address on it. -/
def port_can_be_bound (c : Consts) (os : InitOS) (p : Nat) : Prop :=
  p < 65536 ∧ can_bind c os p

/-! ## The order of initialisation steps, in the words of the specification -/

/-- A step of opening the socket pair: creating or binding the socket of a role. -/
inductive InitStep where
  | create (i : Nat)
  | bind (i : Nat)
  deriving DecidableEq, Repr

/-- Specification: the steps in the order Control first, Data second. -/
def init_order : List InitStep := [.create 0, .bind 0, .create 1, .bind 1]

/-- Specification: whether the OS fails the step. -/
def step_fails (c : Consts) (os : InitOS) (port : Nat) : InitStep → Bool
  | .create i => decide ((os.socket i).ret < 0)
  | .bind i => decide ((os.bind (init_addr c port i)).ret < 0)

/-- Specification: the first failing step, if any. -/
def first_failing_step (c : Consts) (os : InitOS) (port : Nat) : Option InitStep :=
  init_order.find? (step_fails c os port)

/-- Specification: the steps taken when stopping at the first failure. -/
def steps_until_failure (fails : InitStep → Bool) : List InitStep → List InitStep
  | [] => []
  | s :: rest => if fails s then [s] else s :: steps_until_failure fails rest

/-- The OS call which carries out a step. -/
def step_call (c : Consts) (os : InitOS) (port : Nat) : InitStep → Event
  | .create i => .socket c.AF_INET c.SOCK_DGRAM c.IPPROTO_IP (os.socket i).ret
  | .bind i => .bind (os.socket i).ret (init_addr c port i) (os.bind (init_addr c port i)).ret

/-! ## The port the sender compares with, along a call sequence -/

/-- The port which decides the choice of the outbound socket after one more call,
`p` being that port before the call: `applemidi_if_init` makes it the base port,
a tick in which `recvfrom` on the Control socket succeeds makes it the port of the
sender, every other call leaves it. -/
def control_match_port (p : Nat) : Call → Nat
  | .init _ port => port % 65536
  | .tick os => if (os APPLEMIDI_IF_SOCKET_CONTROL).ret < 0 then p
      else htons (os APPLEMIDI_IF_SOCKET_CONTROL).src.sin_port
  | _ => p

/-! ## Pending datagrams -/

/-- A datagram waiting in a socket's receive queue. -/
structure Datagram where
  src : sockaddr_in
  payload : List Nat
  deriving DecidableEq, Repr

/-- The answer of a non-blocking `recvfrom` on a socket with pending datagrams
`q`: the head of the queue, or failure with `EWOULDBLOCK` when the queue is empty. -/
def recv_pending (c : Consts) : List Datagram → RecvOutcome
  | [] => ⟨-1, c.EWOULDBLOCK, [], ⟨0, 0, 0⟩⟩
  | d :: _ => ⟨d.payload.length, 0, d.payload, d.src⟩

/-- The answers of `recvfrom` in one tick when `qc` is pending on the Control
socket and `qd` on the Data socket. -/
def pending_os (c : Consts) (qc qd : List Datagram) : Nat → RecvOutcome :=
  fun i => if i = APPLEMIDI_IF_SOCKET_CONTROL then recv_pending c qc else recv_pending c qd

/-! ## Concrete scenarios -/

/-- The values of the constants in lwIP. -/
def lwip : Consts := ⟨2, 2, 0, 1, 11⟩

/-- An OS in which every call of `applemidi_if_init` succeeds; the sockets get the
descriptors 54 and 55. -/
def os_all_ok : InitOS := ⟨fun i => ⟨54 + i, 0⟩, fun _ => 2, fun _ => ⟨0, 0⟩⟩

/-- An OS in which port 5005 is in use (`EADDRINUSE` = 112), everything else
succeeds. -/
def os_5005_in_use : InitOS :=
  ⟨fun i => ⟨54 + i, 0⟩, fun _ => 2,
    fun a => if a.sin_port = htons 5005 then ⟨-1, 112⟩ else ⟨0, 0⟩⟩

/-- No datagram pending. -/
def would_block : RecvOutcome := ⟨-1, 11, [], ⟨0, 0, 0⟩⟩

/-- A failing receive (`ENOTCONN` = 128). -/
def recv_error : RecvOutcome := ⟨-1, 128, [], ⟨0, 0, 0⟩⟩

/-- The note-on message `[0x90, 0x3C, 0x40]` sent from 192.168.1.10, port 5005. -/
def note_on : RecvOutcome :=
  ⟨3, 0, [0x90, 0x3C, 0x40], ⟨2, htons 5005, memcpy_ip ⟨192, 168, 1, 10⟩⟩⟩

/-- A two-byte datagram sent from 192.168.1.10, port 6000. -/
def from_port_6000 : RecvOutcome :=
  ⟨2, 0, [0xFF, 0xFF], ⟨2, htons 6000, memcpy_ip ⟨192, 168, 1, 10⟩⟩⟩

/-- The table after `applemidi_if_init(5004)` succeeded on the initial table. -/
def opened_5004 : State := (applemidi_if_init lwip 1 os_all_ok 5004 initial_state).state

/-- The calls `applemidi_if_init(5004)` and one tick which receives a datagram from
port 6000 on the Control socket and nothing on the Data socket. -/
def calls_control_rx : List Call :=
  [.init os_all_ok 5004,
   .tick (fun i => if i = APPLEMIDI_IF_SOCKET_CONTROL then from_port_6000 else would_block)]

/-! ## Calls issued along a call sequence, and the sockets they leave open -/

/-- The external calls issued along a sequence of API calls, in order. -/
def trace_calls (c : Consts) (lvl : Nat) : List Call → State → List Event
  | [], _ => []
  | k :: rest, st =>
    (run_call c lvl k st).trace ++ trace_calls c lvl rest (run_call c lvl k st).state

/-- The effect of one external call on the list of descriptors which `socket()` has
returned and `close()` has not yet been called on. -/
def track_socket (live : List Int) : Event → List Int
  | .socket _ _ _ ret => if 0 ≤ ret then live ++ [ret] else live
  | .close fd => live.erase fd
  | _ => live

/-- The descriptors created and not yet closed after the calls of a trace, `live`
being those before it. -/
def live_after (live : List Int) (tr : List Event) : List Int :=
  tr.foldl track_socket live

/-- The descriptors created by the calls of a trace and not closed by them. -/
def open_sockets (tr : List Event) : List Int := live_after [] tr

/-- Specification: no `applemidi_if_init` is called again before an
`applemidi_if_deinit`; `may_init` tells whether an init may come next. -/
def init_deinit_paired : Bool → List Call → Bool
  | _, [] => true
  | may_init, .init _ _ :: rest => may_init && init_deinit_paired false rest
  | _, .deinit :: rest => init_deinit_paired true rest
  | may_init, .send _ _ _ _ _ :: rest => init_deinit_paired may_init rest
  | may_init, .tick _ :: rest => init_deinit_paired may_init rest

/-- The call neither creates nor closes a descriptor. -/
def keeps_sockets : Event → Bool
  | .socket _ _ _ _ => false
  | .close _ => false
  | _ => true

/-! ## Further observations -/

/-- The addresses passed to `bind`, in order. -/
def bind_addrs (tr : List Event) : List sockaddr_in :=
  tr.filterMap (fun e => match e with
    | .bind _ addr _ => some addr
    | _ => none)

/-- The diagnostic output of a trace: its `printf` and `esp_log_buffer_hex` calls. -/
def diagnostics (tr : List Event) : List Event :=
  tr.filter (fun e => match e with
    | .printf _ => true
    | .esp_log_buffer_hex _ _ => true
    | _ => false)

/-- The hex dumps of a trace. -/
def hex_dumps (tr : List Event) : List Event :=
  tr.filter (fun e => match e with
    | .esp_log_buffer_hex _ _ => true
    | _ => false)

/-- Two answers of `recvfrom` which differ at most in the bytes stored in the
buffer. -/
def same_but_payload (a b : RecvOutcome) : Prop :=
  a.ret = b.ret ∧ a.errno = b.errno ∧ a.src = b.src

/-- The call is none in which `recvfrom` succeeds on the Control socket, and no
`applemidi_if_init`. -/
def no_control_rx : Call → Bool
  | .init _ _ => false
  | .tick os => decide ((os APPLEMIDI_IF_SOCKET_CONTROL).ret < 0)
  | _ => true

/-! ## Further scenarios -/

/-- An OS in which every call of a second `applemidi_if_init` succeeds; the sockets
get the descriptors 56 and 57. -/
def os_all_ok_again : InitOS := ⟨fun i => ⟨56 + i, 0⟩, fun _ => 2, fun _ => ⟨0, 0⟩⟩

/-- The calls `applemidi_if_init(5004)` and `applemidi_if_init(5006)` with no
`applemidi_if_deinit` between them. -/
def calls_init_twice : List Call := [.init os_all_ok 5004, .init os_all_ok_again 5006]

/-- The calls of one round of `udp_task`: init, a tick, a send, deinit. -/
def calls_one_round : List Call :=
  [.init os_all_ok 5004,
   .tick (fun i => if i = APPLEMIDI_IF_SOCKET_DATA then note_on else would_block),
   .send ⟨3, 0⟩ ⟨192, 168, 1, 10⟩ 5005 [1, 2, 3] 3,
   .deinit]

/-- The table after `applemidi_if_init(5004)` with port 5005 in use. -/
def half_opened_5004 : State :=
  (applemidi_if_init lwip 1 os_5005_in_use 5004 initial_state).state

/-- A failing `sendto` (`EHOSTUNREACH` = 118). -/
def send_error : OsRet := ⟨-1, 118⟩

/-! ## cmd_start_session -/

/-- What `arg_parse` stored in `applemidi_if_start_session_args`: the string of the
`<ip>` argument, and for the options `--port` and `--peer_port` the number of
occurrences and the first value. -/
structure start_session_args where
  ip_sval : String
  control_port_count : Nat
  control_port_ival : Int
  peer_port_count : Nat
  peer_port_ival : Int

/-- What `cmd_start_session` gets from outside this file: the result of `arg_parse`,
the constant `APPLEMIDI_MAX_PEERS`, the functions `inet_addr`,
`applemidi_search_free_port` and `applemidi_start_session` (its status for the three
arguments passed). None of them is defined in the repository. -/
structure ConsoleEnv where
  nerrors : Int
  APPLEMIDI_MAX_PEERS : Int
  inet_addr : String → Nat
  applemidi_search_free_port : Int
  applemidi_start_session : Int → ip4 → Int → Int

/-- The messages of the `ESP_LOGE` calls of `cmd_start_session`. -/
inductive ErrMsg where
  /-- Message `"Invalid port number, should be within 0..65535!"`. -/
  | invalid_port_number
  /-- Message `"No free peer port available!"`. -/
  | no_free_peer_port
  /-- Message `"Invalid peer port number, should be within 1..%d!"`. -/
  | invalid_peer_port_number (max : Int)
  /-- Message `"Command failed!"`. -/
  | command_failed
  deriving DecidableEq, Repr

/-- An external call issued by `cmd_start_session`, with the result where the code
uses it. -/
inductive CmdEvent where
  | arg_print_errors
  | esp_loge (m : ErrMsg)
  | applemidi_search_free_port (ret : Int)
  | applemidi_start_session (applemidi_port : Int) (ip_addr : ip4) (control_port : Int)
      (status : Int)
  deriving DecidableEq, Repr

/-- Issued calls and return value of a console command. -/
structure CmdOutcome where
  trace : List CmdEvent
  ret : Int
  deriving DecidableEq, Repr

/-- The end of `cmd_start_session`, from `struct sockaddr_in dest_addr;` on: the call
of `applemidi_start_session` with the peer port `applemidi_port`, the four bytes of
`inet_addr(ip->sval[0])` and `control_port`; `before` are the calls issued so far. -/
def start_session_call (env : ConsoleEnv) (args : start_session_args)
    (before : List CmdEvent) (control_port applemidi_port : Int) : CmdOutcome :=
  let ip_addr := bytes_of (env.inet_addr args.ip_sval)
  let status := env.applemidi_start_session applemidi_port ip_addr control_port
  ⟨before ++ [.applemidi_start_session applemidi_port ip_addr control_port status]
      ++ (if status < 0 then [.esp_loge .command_failed] else []),
    0⟩

/-- The middle of `cmd_start_session`, from `int applemidi_port;` on: the choice and
the check of the peer port. -/
def start_session_peer_port (env : ConsoleEnv) (args : start_session_args)
    (control_port : Int) : CmdOutcome :=
  if args.peer_port_count = 0 then
    let applemidi_port := env.applemidi_search_free_port
    if applemidi_port < 0 then
      ⟨[.applemidi_search_free_port applemidi_port, .esp_loge .no_free_peer_port], 1⟩
    else
      start_session_call env args [.applemidi_search_free_port applemidi_port] control_port
        applemidi_port
  else
    let applemidi_port := args.peer_port_ival
    if applemidi_port < 1 ∨ applemidi_port ≥ env.APPLEMIDI_MAX_PEERS then
      ⟨[.esp_loge (.invalid_peer_port_number (env.APPLEMIDI_MAX_PEERS - 1))], 1⟩
    else
      start_session_call env args [] control_port applemidi_port

/-- The function `cmd_start_session(argc, argv)`. -/
def cmd_start_session (env : ConsoleEnv) (args : start_session_args) : CmdOutcome :=
  if env.nerrors ≠ 0 then
    ⟨[.arg_print_errors], 1⟩
  else if args.control_port_count = 0 then
    start_session_peer_port env args 5004
  else
    let control_port := args.control_port_ival
    if control_port < 0 ∨ control_port ≥ 65536 then
      ⟨[.esp_loge .invalid_port_number], 1⟩
    else
      start_session_peer_port env args control_port

/-- The calls of `applemidi_start_session` in a trace. -/
def start_session_calls (tr : List CmdEvent) : List CmdEvent :=
  tr.filter (fun e => match e with
    | .applemidi_start_session _ _ _ _ => true
    | _ => false)

/-- Specification: the command refuses its arguments: a given `--port` is outside
0..65535, or a given `--peer_port` is outside 1..`APPLEMIDI_MAX_PEERS`-1, or no
`--peer_port` is given and `applemidi_search_free_port` returns a negative value. -/
def start_session_refused (env : ConsoleEnv) (args : start_session_args) : Prop :=
  (args.control_port_count ≠ 0
      ∧ ¬ (0 ≤ args.control_port_ival ∧ args.control_port_ival ≤ 65535)) ∨
  (args.peer_port_count ≠ 0
      ∧ ¬ (1 ≤ args.peer_port_ival ∧ args.peer_port_ival ≤ env.APPLEMIDI_MAX_PEERS - 1)) ∨
  (args.peer_port_count = 0 ∧ env.applemidi_search_free_port < 0)

/-- Specification: the peer port the command chooses: the given `--peer_port`, or
else the free port found. -/
def chosen_peer_port (env : ConsoleEnv) (args : start_session_args) : Int :=
  if args.peer_port_count ≠ 0 then args.peer_port_ival else env.applemidi_search_free_port

/-- Specification: the control port the command chooses: the given `--port`, or else
5004. -/
def chosen_control_port (args : start_session_args) : Int :=
  if args.control_port_count ≠ 0 then args.control_port_ival else 5004

/-! ## Scenarios for the zero-initialised table and the console -/

/-- An OS in which `socket()` succeeds and `bind` succeeds on the ports 65535 and 0
only (`EADDRINUSE` = 112 on every other port). -/
def os_only_65535_and_0 : InitOS :=
  ⟨fun i => ⟨54 + i, 0⟩, fun _ => 2,
    fun a => if a.sin_port = htons 65535 ∨ a.sin_port = htons 0 then ⟨0, 0⟩ else ⟨-1, 112⟩⟩

/-- An OS in which `socket()` fails (`ENFILE` = 23). -/
def os_no_socket : InitOS := ⟨fun _ => ⟨-1, 23⟩, fun _ => 2, fun _ => ⟨0, 0⟩⟩

/-- The table after `applemidi_if_init(5004)` on the initial table when the creation
of the Control socket fails. -/
def control_failed_5004 : State :=
  (applemidi_if_init lwip 1 os_no_socket 5004 initial_state).state

/-- A console with `APPLEMIDI_MAX_PEERS` = 5 in which the arguments parse, peer port 2
is free, and `applemidi_start_session` reports failure. -/
def console_failing_start : ConsoleEnv :=
  ⟨0, 5, fun _ => memcpy_ip ⟨192, 168, 1, 10⟩, 2, fun _ _ _ => -1⟩

/-- The arguments of `applemidi_start_session 192.168.1.10`. -/
def args_ip_only : start_session_args := ⟨"192.168.1.10", 0, 0, 0, 0⟩

/-- The arguments of `applemidi_start_session 192.168.1.10 --port 70000`. -/
def args_port_70000 : start_session_args := ⟨"192.168.1.10", 1, 70000, 0, 0⟩

/-! ## Basic facts -/

theorem htons_htons (x : Nat) (h : x < 65536) : htons (htons x) = x := by
  have hq : x / 256 % 256 = x / 256 := by omega
  have h1 : (x % 256 * 256 + x / 256) % 256 = x / 256 := by omega
  have h2 : (x % 256 * 256 + x / 256) / 256 % 256 = x % 256 := by omega
  unfold htons
  rw [hq, h1, h2]
  omega

theorem bytes_of_memcpy_ip (a : ip4) :
    bytes_of (memcpy_ip a) = ⟨a.b0 % 256, a.b1 % 256, a.b2 % 256, a.b3 % 256⟩ := by
  unfold bytes_of memcpy_ip
  congr 1 <;> omega

theorem lor_testBit_right (a b : Int) (k : Nat) (h : b.testBit k = true) :
    (Int.lor a b).testBit k = true := by
  rw [Int.testBit_lor, h, Bool.or_true]

/-! ## The structure of initialisation -/

theorem init_addr_zero (c : Consts) (port : Nat) :
    init_addr c port 0 = ⟨c.AF_INET, htons (port % 65536), htonl INADDR_ANY⟩ := rfl

theorem init_addr_one (c : Consts) (port : Nat) :
    init_addr c port 1 = ⟨c.AF_INET, htons ((port + 1) % 65536), htonl INADDR_ANY⟩ := rfl

/-- The outcome of `applemidi_if_init` when creating the Control socket fails. -/
theorem init_outcome_create0 (c : Consts) (lvl : Nat) (os : InitOS) (port : Nat) (st : State)
    (h0 : (os.socket 0).ret < 0) :
    applemidi_if_init c lvl os port st =
      ⟨⟨⟨(os.socket 0).ret, init_addr c port 0⟩, st.data⟩,
        [Event.socket c.AF_INET c.SOCK_DGRAM c.IPPROTO_IP (os.socket 0).ret]
          ++ (if lvl ≥ 1 then
                [Event.printf (.unable_to_create_socket 0 (os.socket 0).errno)] else []),
        -1⟩ := by
  simp [applemidi_if_init, for_sockets, init_body, APPLEMIDI_IF_NUM_SOCKETS, State.set,
    APPLEMIDI_IF_SOCKET_CONTROL, zero_socket, h0]

/-- The outcome of `applemidi_if_init` when binding the Control socket fails. -/
theorem init_outcome_bind0 (c : Consts) (lvl : Nat) (os : InitOS) (port : Nat) (st : State)
    (h0 : 0 ≤ (os.socket 0).ret) (hb0 : (os.bind (init_addr c port 0)).ret < 0) :
    applemidi_if_init c lvl os port st =
      ⟨⟨⟨-1, init_addr c port 0⟩, st.data⟩,
        [Event.socket c.AF_INET c.SOCK_DGRAM c.IPPROTO_IP (os.socket 0).ret,
          Event.fcntl_getfl (os.socket 0).ret (os.fcntl_getfl (os.socket 0).ret),
          Event.fcntl_setfl (os.socket 0).ret
            (Int.lor (os.fcntl_getfl (os.socket 0).ret) c.O_NONBLOCK),
          Event.bind (os.socket 0).ret (init_addr c port 0) (os.bind (init_addr c port 0)).ret,
          Event.close (os.socket 0).ret]
          ++ (if lvl ≥ 1 then
                [Event.printf (.unable_to_bind_socket 0 (os.bind (init_addr c port 0)).errno)]
              else []),
        -2⟩ := by
  have h0' : ¬ (os.socket 0).ret < 0 := by omega
  simp [applemidi_if_init, for_sockets, init_body, APPLEMIDI_IF_NUM_SOCKETS, State.set,
    APPLEMIDI_IF_SOCKET_CONTROL, zero_socket, h0', hb0]

/-- The outcome of `applemidi_if_init` when creating the Data socket fails. -/
theorem init_outcome_create1 (c : Consts) (lvl : Nat) (os : InitOS) (port : Nat) (st : State)
    (h0 : 0 ≤ (os.socket 0).ret) (hb0 : 0 ≤ (os.bind (init_addr c port 0)).ret)
    (h1 : (os.socket 1).ret < 0) :
    applemidi_if_init c lvl os port st =
      ⟨⟨⟨(os.socket 0).ret, init_addr c port 0⟩, ⟨(os.socket 1).ret, init_addr c port 1⟩⟩,
        [Event.socket c.AF_INET c.SOCK_DGRAM c.IPPROTO_IP (os.socket 0).ret,
          Event.fcntl_getfl (os.socket 0).ret (os.fcntl_getfl (os.socket 0).ret),
          Event.fcntl_setfl (os.socket 0).ret
            (Int.lor (os.fcntl_getfl (os.socket 0).ret) c.O_NONBLOCK),
          Event.bind (os.socket 0).ret (init_addr c port 0) (os.bind (init_addr c port 0)).ret,
          Event.socket c.AF_INET c.SOCK_DGRAM c.IPPROTO_IP (os.socket 1).ret]
          ++ (if lvl ≥ 1 then
                [Event.printf (.unable_to_create_socket 1 (os.socket 1).errno)] else []),
        -1⟩ := by
  have h0' : ¬ (os.socket 0).ret < 0 := by omega
  have hb0' : ¬ (os.bind (init_addr c port 0)).ret < 0 := by omega
  simp [applemidi_if_init, for_sockets, init_body, APPLEMIDI_IF_NUM_SOCKETS, State.set,
    APPLEMIDI_IF_SOCKET_CONTROL, zero_socket, h0', hb0', h1]

/-- The outcome of `applemidi_if_init` when binding the Data socket fails. -/
theorem init_outcome_bind1 (c : Consts) (lvl : Nat) (os : InitOS) (port : Nat) (st : State)
    (h0 : 0 ≤ (os.socket 0).ret) (hb0 : 0 ≤ (os.bind (init_addr c port 0)).ret)
    (h1 : 0 ≤ (os.socket 1).ret) (hb1 : (os.bind (init_addr c port 1)).ret < 0) :
    applemidi_if_init c lvl os port st =
      ⟨⟨⟨(os.socket 0).ret, init_addr c port 0⟩, ⟨-1, init_addr c port 1⟩⟩,
        [Event.socket c.AF_INET c.SOCK_DGRAM c.IPPROTO_IP (os.socket 0).ret,
          Event.fcntl_getfl (os.socket 0).ret (os.fcntl_getfl (os.socket 0).ret),
          Event.fcntl_setfl (os.socket 0).ret
            (Int.lor (os.fcntl_getfl (os.socket 0).ret) c.O_NONBLOCK),
          Event.bind (os.socket 0).ret (init_addr c port 0) (os.bind (init_addr c port 0)).ret,
          Event.socket c.AF_INET c.SOCK_DGRAM c.IPPROTO_IP (os.socket 1).ret,
          Event.fcntl_getfl (os.socket 1).ret (os.fcntl_getfl (os.socket 1).ret),
          Event.fcntl_setfl (os.socket 1).ret
            (Int.lor (os.fcntl_getfl (os.socket 1).ret) c.O_NONBLOCK),
          Event.bind (os.socket 1).ret (init_addr c port 1) (os.bind (init_addr c port 1)).ret,
          Event.close (os.socket 1).ret]
          ++ (if lvl ≥ 1 then
                [Event.printf (.unable_to_bind_socket 1 (os.bind (init_addr c port 1)).errno)]
              else []),
        -2⟩ := by
  have h0' : ¬ (os.socket 0).ret < 0 := by omega
  have hb0' : ¬ (os.bind (init_addr c port 0)).ret < 0 := by omega
  have h1' : ¬ (os.socket 1).ret < 0 := by omega
  simp [applemidi_if_init, for_sockets, init_body, APPLEMIDI_IF_NUM_SOCKETS, State.set,
    APPLEMIDI_IF_SOCKET_CONTROL, zero_socket, h0', hb0', h1', hb1]

/-- The outcome of `applemidi_if_init` when no step fails. -/
theorem init_outcome_ok (c : Consts) (lvl : Nat) (os : InitOS) (port : Nat) (st : State)
    (h0 : 0 ≤ (os.socket 0).ret) (hb0 : 0 ≤ (os.bind (init_addr c port 0)).ret)
    (h1 : 0 ≤ (os.socket 1).ret) (hb1 : 0 ≤ (os.bind (init_addr c port 1)).ret) :
    applemidi_if_init c lvl os port st =
      ⟨⟨⟨(os.socket 0).ret, init_addr c port 0⟩, ⟨(os.socket 1).ret, init_addr c port 1⟩⟩,
        [Event.socket c.AF_INET c.SOCK_DGRAM c.IPPROTO_IP (os.socket 0).ret,
          Event.fcntl_getfl (os.socket 0).ret (os.fcntl_getfl (os.socket 0).ret),
          Event.fcntl_setfl (os.socket 0).ret
            (Int.lor (os.fcntl_getfl (os.socket 0).ret) c.O_NONBLOCK),
          Event.bind (os.socket 0).ret (init_addr c port 0) (os.bind (init_addr c port 0)).ret,
          Event.socket c.AF_INET c.SOCK_DGRAM c.IPPROTO_IP (os.socket 1).ret,
          Event.fcntl_getfl (os.socket 1).ret (os.fcntl_getfl (os.socket 1).ret),
          Event.fcntl_setfl (os.socket 1).ret
            (Int.lor (os.fcntl_getfl (os.socket 1).ret) c.O_NONBLOCK),
          Event.bind (os.socket 1).ret (init_addr c port 1) (os.bind (init_addr c port 1)).ret],
        0⟩ := by
  have h0' : ¬ (os.socket 0).ret < 0 := by omega
  have hb0' : ¬ (os.bind (init_addr c port 0)).ret < 0 := by omega
  have h1' : ¬ (os.socket 1).ret < 0 := by omega
  have hb1' : ¬ (os.bind (init_addr c port 1)).ret < 0 := by omega
  simp [applemidi_if_init, for_sockets, init_body, APPLEMIDI_IF_NUM_SOCKETS, State.set,
    APPLEMIDI_IF_SOCKET_CONTROL, zero_socket, h0', hb0', h1', hb1']

/-- Whatever the OS answers, `applemidi_if_init` leaves `htons(rx_port)` of the base
port in the Control entry. -/
theorem init_control_port (c : Consts) (lvl : Nat) (os : InitOS) (port : Nat) (st : State) :
    (applemidi_if_init c lvl os port st).state.control.socket_addr.sin_port
      = htons (port % 65536) := by
  by_cases h0 : (os.socket 0).ret < 0
  · simp [applemidi_if_init, for_sockets, init_body, APPLEMIDI_IF_NUM_SOCKETS, State.set,
      APPLEMIDI_IF_SOCKET_CONTROL, zero_socket, init_addr, h0]
  · by_cases hb0 : (os.bind (init_addr c port 0)).ret < 0
    · simp [applemidi_if_init, for_sockets, init_body, APPLEMIDI_IF_NUM_SOCKETS, State.set,
        APPLEMIDI_IF_SOCKET_CONTROL, zero_socket, h0, hb0]
      simp [init_addr]
    · by_cases h1 : (os.socket 1).ret < 0
      · simp [applemidi_if_init, for_sockets, init_body, APPLEMIDI_IF_NUM_SOCKETS, State.set,
          APPLEMIDI_IF_SOCKET_CONTROL, zero_socket, h0, hb0, h1]
        simp [init_addr]
      · by_cases hb1 : (os.bind (init_addr c port 1)).ret < 0
        · simp [applemidi_if_init, for_sockets, init_body, APPLEMIDI_IF_NUM_SOCKETS, State.set,
            APPLEMIDI_IF_SOCKET_CONTROL, zero_socket, h0, hb0, h1, hb1]
          simp [init_addr]
        · simp [applemidi_if_init, for_sockets, init_body, APPLEMIDI_IF_NUM_SOCKETS, State.set,
            APPLEMIDI_IF_SOCKET_CONTROL, zero_socket, h0, hb0, h1, hb1]
          simp [init_addr]

/-! ## The structure of one tick -/

theorem handler_calls_append (r : Nat) (a b : List Event) :
    handler_calls r (a ++ b) = handler_calls r a ++ handler_calls r b := by
  simp [handler_calls]

theorem poll_steps_append (a b : List Event) :
    poll_steps (a ++ b) = poll_steps a ++ poll_steps b := by
  simp [poll_steps]

/-- The trace of a tick is the trace of the Control iteration followed, unless that
iteration left the loop, by the trace of the Data iteration; the final table is the
one of the last iteration run. -/
theorem tick_unfold (c : Consts) (lvl : Nat) (os : Nat → RecvOutcome) (st : State) :
    applemidi_if_tick c lvl os st =
      if (tick_body c lvl os 0 st).2.2 = none then
        ⟨(tick_body c lvl os 1 (tick_body c lvl os 0 st).1).1,
          (tick_body c lvl os 0 st).2.1 ++ (tick_body c lvl os 1 (tick_body c lvl os 0 st).1).2.1,
          0⟩
      else
        ⟨(tick_body c lvl os 0 st).1, (tick_body c lvl os 0 st).2.1, 0⟩ := by
  unfold applemidi_if_tick
  simp only [APPLEMIDI_IF_NUM_SOCKETS, for_sockets]
  rcases h0 : tick_body c lvl os 0 st with ⟨st1, ev, _ | u⟩
  · rcases h1 : tick_body c lvl os 1 st1 with ⟨st2, ev2, _ | u2⟩ <;> simp [h1]
  · simp

/-- An iteration leaves the loop exactly on a receive error other than would-block. -/
theorem tick_body_continues (c : Consts) (lvl : Nat) (os : Nat → RecvOutcome) (i : Nat)
    (st : State) :
    (tick_body c lvl os i st).2.2 = none ↔
      ¬ ((os i).ret < 0 ∧ (os i).errno ≠ c.EWOULDBLOCK) := by
  unfold tick_body
  simp only []
  split_ifs <;> simp_all

/-- An iteration issues exactly one `recvfrom`, on the handle of its own entry. -/
theorem recvfrom_mem_tick_body (c : Consts) (lvl : Nat) (os : Nat → RecvOutcome) (i : Nat)
    (st : State) (fd : Int) (n : Nat) (fl : Int) (r : Nat) (out : RecvOutcome) :
    Event.recvfrom fd n fl r out ∈ (tick_body c lvl os i st).2.1 ↔
      fd = (st.get i).handle ∧ n = APPLEMIDI_IF_MAX_PACKET_SIZE ∧ fl = 0 ∧ r = i
        ∧ out = os i := by
  unfold tick_body
  simp only []
  split_ifs <;> simp

/-- The receive calls and handler invocations of one iteration. -/
theorem poll_steps_tick_body (c : Consts) (lvl : Nat) (os : Nat → RecvOutcome) (i : Nat)
    (st : State) :
    poll_steps (tick_body c lvl os i st).2.1 =
      if (os i).ret < 0 then [.receive i] else [.receive i, .handler (is_dataport i)] := by
  unfold tick_body
  simp only []
  split_ifs <;> simp [poll_steps]

/-- The handler invocations of one iteration. -/
theorem handler_calls_tick_body (c : Consts) (lvl : Nat) (os : Nat → RecvOutcome) (i r : Nat)
    (st : State) :
    handler_calls r (tick_body c lvl os i st).2.1 =
      if (os i).ret < 0 ∨ is_dataport i ≠ is_dataport r then []
      else [Event.parse_udp_datagram (bytes_of (os i).src.sin_addr)
              (htons (os i).src.sin_port) (os i).data (os i).ret.toNat (is_dataport i)] := by
  by_cases hret : (os i).ret < 0 <;> by_cases hd : is_dataport i = is_dataport r <;>
    simp only [tick_body, hret, hd, if_true, if_false, true_or, or_true, or_self, ne_eq,
      not_true_eq_false, not_false_eq_true] <;>
    split_ifs <;> simp_all [handler_calls]

/-- The receive calls and handler invocations of a whole tick. -/
theorem poll_steps_tick (c : Consts) (lvl : Nat) (os : Nat → RecvOutcome) (st : State) :
    poll_steps (applemidi_if_tick c lvl os st).trace =
      if (os 0).ret < 0 ∧ (os 0).errno ≠ c.EWOULDBLOCK then [.receive 0]
      else
        (if (os 0).ret < 0 then [.receive 0] else [.receive 0, .handler 0])
          ++ (if (os 1).ret < 0 then [.receive 1] else [.receive 1, .handler 1]) := by
  rw [tick_unfold]
  by_cases hb : (os 0).ret < 0 ∧ (os 0).errno ≠ c.EWOULDBLOCK
  · have hc : ¬ (tick_body c lvl os 0 st).2.2 = none := by
      rw [tick_body_continues]
      exact not_not.mpr hb
    simp only [hc, if_false, poll_steps_tick_body]
    rw [if_pos hb.1, if_pos hb]
  · have hc : (tick_body c lvl os 0 st).2.2 = none := by
      rw [tick_body_continues]
      exact hb
    simp only [hc, hb, if_true, if_false, poll_steps_append, poll_steps_tick_body]
    rfl

/-- With datagrams pending on the two sockets, a tick hands the first datagram of
each non-empty queue to the handler and no other. -/
theorem handler_calls_pending (c : Consts) (lvl : Nat) (qc qd : List Datagram) (st : State) :
    handler_calls 0 (applemidi_if_tick c lvl (pending_os c qc qd) st).trace
      = (qc.head?.map (fun d => Event.parse_udp_datagram (bytes_of d.src.sin_addr)
          (htons d.src.sin_port) d.payload d.payload.length 0)).toList ∧
    handler_calls 1 (applemidi_if_tick c lvl (pending_os c qc qd) st).trace
      = (qd.head?.map (fun d => Event.parse_udp_datagram (bytes_of d.src.sin_addr)
          (htons d.src.sin_port) d.payload d.payload.length 1)).toList := by
  have hc : (tick_body c lvl (pending_os c qc qd) 0 st).2.2 = none := by
    rw [tick_body_continues]
    cases qc <;> simp [pending_os, recv_pending, APPLEMIDI_IF_SOCKET_CONTROL]
  rw [tick_unfold]
  simp only [hc, if_true, handler_calls_append, handler_calls_tick_body]
  cases qc <;> cases qd <;>
    simp [pending_os, recv_pending, APPLEMIDI_IF_SOCKET_CONTROL, APPLEMIDI_IF_SOCKET_DATA,
      is_dataport]

/-- The Control entry's address after a tick: the sender of the datagram received
on the Control socket, if one was received. -/
theorem tick_control_addr (c : Consts) (lvl : Nat) (os : Nat → RecvOutcome) (st : State) :
    (applemidi_if_tick c lvl os st).state.control.socket_addr
      = if (os 0).ret < 0 then st.control.socket_addr else (os 0).src := by
  by_cases h0 : (os 0).ret < 0 <;> by_cases e0 : (os 0).errno = c.EWOULDBLOCK <;>
    by_cases h1 : (os 1).ret < 0 <;> by_cases e1 : (os 1).errno = c.EWOULDBLOCK <;>
    simp [applemidi_if_tick, for_sockets, tick_body, APPLEMIDI_IF_NUM_SOCKETS, State.set,
      State.get, APPLEMIDI_IF_SOCKET_CONTROL, h0, h1, e0, e1]

/-! ## Call sequences and the port compared by the sender -/

/-- The socket addresses are not touched by `applemidi_if_deinit`. -/
theorem deinit_control_addr (st : State) :
    (applemidi_if_deinit st).state.control.socket_addr = st.control.socket_addr := by
  by_cases h0 : 0 ≤ st.control.handle <;> by_cases h1 : 0 ≤ st.data.handle <;>
    simp [applemidi_if_deinit, for_sockets, deinit_body, APPLEMIDI_IF_NUM_SOCKETS, State.set,
      State.get, APPLEMIDI_IF_SOCKET_CONTROL, h0, h1]

/-- The state is not touched by `applemidi_if_send_udp_datagram`. -/
theorem send_state (lvl : Nat) (os : OsRet) (ip_addr : ip4) (port : Nat) (tx_data : List Nat)
    (tx_len : Nat) (st : State) :
    (applemidi_if_send_udp_datagram lvl os ip_addr port tx_data tx_len st).state = st := by
  unfold applemidi_if_send_udp_datagram
  simp only []
  split_ifs <;> rfl

/-- One call of the API moves the port compared by the sender as `control_match_port`
says. -/
theorem run_call_match_port (c : Consts) (lvl : Nat) (k : Call) (st : State) :
    htons (run_call c lvl k st).state.control.socket_addr.sin_port
      = control_match_port (htons st.control.socket_addr.sin_port) k := by
  cases k with
  | init os port =>
    simp only [run_call, control_match_port, init_control_port]
    exact htons_htons _ (Nat.mod_lt _ (by norm_num))
  | deinit => simp only [run_call, control_match_port, deinit_control_addr]
  | send os ip_addr port tx_data tx_len => simp only [run_call, control_match_port, send_state]
  | tick os =>
    simp only [run_call, control_match_port, tick_control_addr, APPLEMIDI_IF_SOCKET_CONTROL]
    split_ifs <;> rfl

/-- Along a call sequence the port compared by the sender follows `control_match_port`. -/
theorem run_calls_match_port (c : Consts) (lvl : Nat) (calls : List Call) (st : State) :
    htons (run_calls c lvl calls st).control.socket_addr.sin_port
      = calls.foldl control_match_port (htons st.control.socket_addr.sin_port) := by
  induction calls generalizing st with
  | nil => rfl
  | cons k rest ih =>
    simp only [run_calls, List.foldl_cons] at ih ⊢
    rw [ih, run_call_match_port]

/-! ## Claims -/

/-- C1 (as amended): after any sequence of `applemidi_if_init`, `applemidi_if_deinit`,
`applemidi_if_send_udp_datagram` and `applemidi_if_tick` calls on the initial table,
a send to destination port `p` selects the Control socket if and only if `p` equals
the port then stored in the Control entry, which is the port tracked by
`control_match_port` (the base port of the last init, replaced by the sender port of
every datagram later received on the Control socket), and selects the Data socket
otherwise. -/
theorem send_selects_control_iff_match_port (c : Consts) (lvl : Nat) (calls : List Call)
    (p : Nat) :
    htons (run_calls c lvl calls initial_state).control.socket_addr.sin_port
      = calls.foldl control_match_port 0 ∧
    (select_socket (run_calls c lvl calls initial_state) p = APPLEMIDI_IF_SOCKET_CONTROL
        ↔ p = calls.foldl control_match_port 0) ∧
    (select_socket (run_calls c lvl calls initial_state) p = APPLEMIDI_IF_SOCKET_DATA
        ↔ p ≠ calls.foldl control_match_port 0) := by
  have h := run_calls_match_port c lvl calls initial_state
  have h0 : htons initial_state.control.socket_addr.sin_port = 0 := by decide
  rw [h0] at h
  refine ⟨h, ?_⟩
  unfold select_socket
  simp only [State.get, if_true, h]
  by_cases hp : p = calls.foldl control_match_port 0
  · simp [hp, APPLEMIDI_IF_SOCKET_CONTROL, APPLEMIDI_IF_SOCKET_DATA]
  · simp [hp, APPLEMIDI_IF_SOCKET_CONTROL, APPLEMIDI_IF_SOCKET_DATA]

/-- C1 (counterexample): after `applemidi_if_init(5004)` and a tick which receives a
datagram from port 6000 on the Control socket, a send to port 5004, the local
Control port, selects the Data socket, and a send to port 6000 selects the Control
socket. -/
theorem send_to_local_control_port_selects_data :
    select_socket (run_calls lwip 1 calls_control_rx initial_state) 5004
        = APPLEMIDI_IF_SOCKET_DATA ∧
    select_socket (run_calls lwip 1 calls_control_rx initial_state) 6000
        = APPLEMIDI_IF_SOCKET_CONTROL := by
  decide

/-- C2: every datagram which a `recvfrom` call of `applemidi_if_tick` returns
successfully on the socket of role `r` is handed to the handler exactly once, with
the sender's four address bytes, the sender's port in host byte order, the received
bytes, the received length, and `is_dataport = 1` exactly for the Data role. -/
theorem tick_hands_received_datagram_to_handler (c : Consts) (lvl : Nat)
    (os : Nat → RecvOutcome) (st : State) (fd : Int) (bufsize : Nat) (flags : Int) (r : Nat)
    (out : RecvOutcome)
    (hrecv : Event.recvfrom fd bufsize flags r out ∈ (applemidi_if_tick c lvl os st).trace)
    (hok : 0 ≤ out.ret) :
    (r = APPLEMIDI_IF_SOCKET_CONTROL ∨ r = APPLEMIDI_IF_SOCKET_DATA) ∧
    handler_calls r (applemidi_if_tick c lvl os st).trace
      = [Event.parse_udp_datagram (bytes_of out.src.sin_addr) (htons out.src.sin_port)
          out.data out.ret.toNat (if r = APPLEMIDI_IF_SOCKET_DATA then 1 else 0)] := by
  rw [tick_unfold] at hrecv ⊢
  by_cases hc : (tick_body c lvl os 0 st).2.2 = none
  · simp only [hc, if_true, List.mem_append, recvfrom_mem_tick_body] at hrecv
    simp only [hc, if_true, handler_calls_append, handler_calls_tick_body]
    rcases hrecv with ⟨-, -, -, rfl, rfl⟩ | ⟨-, -, -, rfl, rfl⟩
    · have h : ¬ (os 0).ret < 0 := by omega
      simp [h, is_dataport, APPLEMIDI_IF_SOCKET_CONTROL, APPLEMIDI_IF_SOCKET_DATA]
    · have h : ¬ (os 1).ret < 0 := by omega
      simp [h, is_dataport, APPLEMIDI_IF_SOCKET_CONTROL, APPLEMIDI_IF_SOCKET_DATA]
  · have hb := hc
    rw [tick_body_continues] at hb
    simp only [hc, if_false, recvfrom_mem_tick_body] at hrecv
    obtain ⟨-, -, -, rfl, rfl⟩ := hrecv
    exact absurd hok (by omega)

/-- C2 (witness): after `applemidi_if_init(5004)`, the three bytes
`[0x90, 0x3C, 0x40]` arriving on the Data socket are handed to the handler once,
with `is_dataport = 1`. -/
theorem tick_hands_note_on_to_handler :
    handler_calls 1
        (applemidi_if_tick lwip 1
          (fun i => if i = APPLEMIDI_IF_SOCKET_DATA then note_on else would_block)
          opened_5004).trace
      = [Event.parse_udp_datagram ⟨192, 168, 1, 10⟩ 5005 [0x90, 0x3C, 0x40] 3 1] :=
  (tick_hands_received_datagram_to_handler lwip 1
    (fun i => if i = APPLEMIDI_IF_SOCKET_DATA then note_on else would_block) opened_5004
    55 1472 0 1 note_on (by decide) (by decide)).2

/-- C3 (as amended): when both `socket()` calls succeed, `applemidi_if_init(port)`
returns 0 if and only if the wildcard address can be bound on the base port and on
the 16-bit sum of the base port and 1; after a return of 0 both handles are open,
both descriptors were set non-blocking, and `cmd_info` prints both sockets as up.
For a base port below 65535 the 16-bit sum is the port one above the base port, so
that init returns 0 if and only if the ports `port` and `port + 1` can be bound; for
the base port 65535 it is port 0. -/
theorem init_succeeds_iff_both_ports_bind (c : Consts) (lvl : Nat) (os : InitOS) (port : Nat)
    (st : State) (hsock : ∀ i, i < APPLEMIDI_IF_NUM_SOCKETS → 0 ≤ (os.socket i).ret) :
    ((applemidi_if_init c lvl os port st).ret = 0
      ↔ can_bind c os (port % 65536) ∧ can_bind c os ((port + 1) % 65536)) ∧
    ((applemidi_if_init c lvl os port st).ret = 0 →
      0 ≤ (applemidi_if_init c lvl os port st).state.control.handle ∧
      0 ≤ (applemidi_if_init c lvl os port st).state.data.handle ∧
      sets_nonblocking c (applemidi_if_init c lvl os port st).state.control.handle
        (applemidi_if_init c lvl os port st).trace ∧
      sets_nonblocking c (applemidi_if_init c lvl os port st).state.data.handle
        (applemidi_if_init c lvl os port st).trace ∧
      cmd_info (applemidi_if_init c lvl os port st).state
        = [Event.printf (.control_udp_socket .up), Event.printf (.data_udp_socket .up)]) ∧
    (port < 65535 →
      ((applemidi_if_init c lvl os port st).ret = 0
        ↔ port_can_be_bound c os port ∧ port_can_be_bound c os (port + 1))) ∧
    (port = 65535 →
      ((applemidi_if_init c lvl os port st).ret = 0
        ↔ port_can_be_bound c os 65535 ∧ port_can_be_bound c os 0)) := by
  have h0 := hsock 0 (by decide)
  have h1 := hsock 1 (by decide)
  have main : ((applemidi_if_init c lvl os port st).ret = 0
        ↔ can_bind c os (port % 65536) ∧ can_bind c os ((port + 1) % 65536)) ∧
      ((applemidi_if_init c lvl os port st).ret = 0 →
        0 ≤ (applemidi_if_init c lvl os port st).state.control.handle ∧
        0 ≤ (applemidi_if_init c lvl os port st).state.data.handle ∧
        sets_nonblocking c (applemidi_if_init c lvl os port st).state.control.handle
          (applemidi_if_init c lvl os port st).trace ∧
        sets_nonblocking c (applemidi_if_init c lvl os port st).state.data.handle
          (applemidi_if_init c lvl os port st).trace ∧
        cmd_info (applemidi_if_init c lvl os port st).state
          = [Event.printf (.control_udp_socket .up),
              Event.printf (.data_udp_socket .up)]) := by
    unfold can_bind
    rw [← init_addr_zero, ← init_addr_one]
    by_cases hb0 : (os.bind (init_addr c port 0)).ret < 0
    · rw [init_outcome_bind0 c lvl os port st h0 hb0]
      simp only [reduceCtorEq, false_iff, not_and, IsEmpty.forall_iff, and_true]
      omega
    · by_cases hb1 : (os.bind (init_addr c port 1)).ret < 0
      · rw [init_outcome_bind1 c lvl os port st h0 (by omega) h1 hb1]
        simp only [reduceCtorEq, false_iff, not_and, IsEmpty.forall_iff, and_true]
        omega
      · rw [init_outcome_ok c lvl os port st h0 (by omega) h1 (by omega)]
        refine ⟨by simp only [true_iff]; omega, fun _ => ⟨h0, h1, ?_, ?_, ?_⟩⟩
        · exact ⟨Int.lor (os.fcntl_getfl (os.socket 0).ret) c.O_NONBLOCK, by simp,
            fun k hk => lor_testBit_right _ _ k hk⟩
        · exact ⟨Int.lor (os.fcntl_getfl (os.socket 1).ret) c.O_NONBLOCK, by simp,
            fun k hk => lor_testBit_right _ _ k hk⟩
        · simp [cmd_info, State.get, APPLEMIDI_IF_SOCKET_CONTROL, h0]
  refine ⟨main.1, main.2, fun hlt => ?_, fun heq => ?_⟩
  · have e0 : port % 65536 = port := by omega
    have e1 : (port + 1) % 65536 = port + 1 := by omega
    have hm := main.1
    rw [e0, e1] at hm
    rw [hm]
    unfold port_can_be_bound
    constructor
    · exact fun h => ⟨⟨by omega, h.1⟩, ⟨by omega, h.2⟩⟩
    · exact fun h => ⟨h.1.2, h.2.2⟩
  · have hm := main.1
    subst heq
    rw [hm]
    unfold port_can_be_bound
    constructor
    · exact fun h => ⟨⟨by decide, h.1⟩, ⟨by decide, h.2⟩⟩
    · exact fun h => ⟨h.1.2, h.2.2⟩

/-- C3 (witness): with every OS call succeeding, `applemidi_if_init(5004)` returns 0
and leaves both handles open. -/
theorem init_5004_succeeds :
    (applemidi_if_init lwip 1 os_all_ok 5004 initial_state).ret = 0 ∧
    0 ≤ (applemidi_if_init lwip 1 os_all_ok 5004 initial_state).state.control.handle ∧
    0 ≤ (applemidi_if_init lwip 1 os_all_ok 5004 initial_state).state.data.handle :=
  have h := init_succeeds_iff_both_ports_bind lwip 1 os_all_ok 5004 initial_state
    (fun i _ => by simp only [os_all_ok]; omega)
  have h0 := h.1.mpr ⟨by unfold can_bind; decide, by unfold can_bind; decide⟩
  ⟨h0, (h.2.1 h0).1, (h.2.1 h0).2.1⟩

/-- C3 (counterexample): with `socket()` succeeding and only the ports 65535 and 0
free, `applemidi_if_init(65535)` returns 0 although the port one above the base
port, 65536, is no port and cannot be bound: it binds 65535 and 0. -/
theorem init_65535_succeeds_without_port_65536 :
    (applemidi_if_init lwip 1 os_only_65535_and_0 65535 initial_state).ret = 0 ∧
    port_can_be_bound lwip os_only_65535_and_0 65535 ∧
    ¬ port_can_be_bound lwip os_only_65535_and_0 (65535 + 1) ∧
    ¬ ((applemidi_if_init lwip 1 os_only_65535_and_0 65535 initial_state).ret = 0
        ↔ port_can_be_bound lwip os_only_65535_and_0 65535
          ∧ port_can_be_bound lwip os_only_65535_and_0 (65535 + 1)) ∧
    (bind_addrs (applemidi_if_init lwip 1 os_only_65535_and_0 65535 initial_state).trace).map
        (fun a => htons a.sin_port) = [65535, 0] := by
  unfold port_can_be_bound can_bind
  decide

/-- C4: `applemidi_if_init` takes the steps create Control, bind Control, create
Data, bind Data in this order and stops at the first one that fails; it returns -1
exactly when the first failing step is a socket creation, -2 exactly when it is a
bind, and 0 exactly when no step fails, so that every result other than 0 is
negative. -/
theorem init_result_by_first_failing_step (c : Consts) (lvl : Nat) (os : InitOS) (port : Nat)
    (st : State) :
    ((applemidi_if_init c lvl os port st).ret = -1
      ↔ ∃ i, first_failing_step c os port = some (.create i)) ∧
    ((applemidi_if_init c lvl os port st).ret = -2
      ↔ ∃ i, first_failing_step c os port = some (.bind i)) ∧
    ((applemidi_if_init c lvl os port st).ret = 0 ↔ first_failing_step c os port = none) ∧
    ((applemidi_if_init c lvl os port st).ret = 0
      ∨ (applemidi_if_init c lvl os port st).ret < 0) ∧
    socket_bind_calls (applemidi_if_init c lvl os port st).trace
      = (steps_until_failure (step_fails c os port) init_order).map (step_call c os port) := by
  by_cases h0 : (os.socket 0).ret < 0
  · rw [init_outcome_create0 c lvl os port st h0]
    split_ifs <;>
      simp [first_failing_step, init_order, step_fails, steps_until_failure, step_call,
        socket_bind_calls, h0]
  · by_cases hb0 : (os.bind (init_addr c port 0)).ret < 0
    · rw [init_outcome_bind0 c lvl os port st (by omega) hb0]
      split_ifs <;>
        simp [first_failing_step, init_order, step_fails, steps_until_failure, step_call,
          socket_bind_calls, h0, hb0]
    · by_cases h1 : (os.socket 1).ret < 0
      · rw [init_outcome_create1 c lvl os port st (by omega) (by omega) h1]
        split_ifs <;>
          simp [first_failing_step, init_order, step_fails, steps_until_failure, step_call,
            socket_bind_calls, h0, hb0, h1]
      · by_cases hb1 : (os.bind (init_addr c port 1)).ret < 0
        · rw [init_outcome_bind1 c lvl os port st (by omega) (by omega) (by omega) hb1]
          split_ifs <;>
            simp [first_failing_step, init_order, step_fails, steps_until_failure, step_call,
              socket_bind_calls, h0, hb0, h1, hb1]
        · rw [init_outcome_ok c lvl os port st (by omega) (by omega) (by omega) (by omega)]
          simp [first_failing_step, init_order, step_fails, steps_until_failure, step_call,
            socket_bind_calls, h0, hb0, h1, hb1]

/-- C5: when the Control socket is created and bound and the Data socket is created
but fails to bind, `applemidi_if_init` returns -2, the Control entry keeps its open,
bound handle, the Data entry gets handle -1, and the only descriptor closed is the
Data socket just created. -/
theorem init_data_bind_failure_keeps_control (c : Consts) (lvl : Nat) (os : InitOS)
    (port : Nat) (st : State)
    (h0 : 0 ≤ (os.socket 0).ret) (hb0 : 0 ≤ (os.bind (init_addr c port 0)).ret)
    (h1 : 0 ≤ (os.socket 1).ret) (hb1 : (os.bind (init_addr c port 1)).ret < 0) :
    (applemidi_if_init c lvl os port st).ret = -2 ∧
    (applemidi_if_init c lvl os port st).state.control
      = ⟨(os.socket 0).ret, init_addr c port 0⟩ ∧
    is_open (applemidi_if_init c lvl os port st).state.control = true ∧
    Event.bind (os.socket 0).ret (init_addr c port 0) (os.bind (init_addr c port 0)).ret
      ∈ (applemidi_if_init c lvl os port st).trace ∧
    (applemidi_if_init c lvl os port st).state.data.handle = -1 ∧
    close_calls (applemidi_if_init c lvl os port st).trace = [Event.close (os.socket 1).ret] := by
  rw [init_outcome_bind1 c lvl os port st h0 hb0 h1 hb1]
  split_ifs <;> simp [is_open, close_calls, h0]

/-- C5 (witness): `applemidi_if_init(5004)` with port 5005 in use returns -2, keeps
the Control socket (descriptor 54) open and closes only descriptor 55. -/
theorem init_5004_with_5005_in_use :
    (applemidi_if_init lwip 1 os_5005_in_use 5004 initial_state).ret = -2 ∧
    (applemidi_if_init lwip 1 os_5005_in_use 5004 initial_state).state.control.handle = 54 ∧
    (applemidi_if_init lwip 1 os_5005_in_use 5004 initial_state).state.data.handle = -1 ∧
    close_calls (applemidi_if_init lwip 1 os_5005_in_use 5004 initial_state).trace
      = [Event.close 55] :=
  have h := init_data_bind_failure_keeps_control lwip 1 os_5005_in_use 5004 initial_state
    (by decide) (by decide) (by decide) (by decide)
  ⟨h.1, congrArg applemidi_if_socket_t.handle h.2.1, h.2.2.2.2.1, h.2.2.2.2.2⟩

/-- C6: from every table, `applemidi_if_deinit` returns 0 and leaves both handles
negative, so that `cmd_info` prints both sockets as down; a second call returns 0
again, issues no OS call and leaves the table as the first call left it. -/
theorem deinit_closes_both_and_is_idempotent (st : State) :
    (applemidi_if_deinit st).ret = 0 ∧
    (applemidi_if_deinit st).state.control.handle < 0 ∧
    (applemidi_if_deinit st).state.data.handle < 0 ∧
    cmd_info (applemidi_if_deinit st).state
      = [Event.printf (.control_udp_socket .down), Event.printf (.data_udp_socket .down)] ∧
    applemidi_if_deinit (applemidi_if_deinit st).state
      = ⟨(applemidi_if_deinit st).state, [], 0⟩ := by
  by_cases h0 : 0 ≤ st.control.handle <;> by_cases h1 : 0 ≤ st.data.handle <;>
    simp [applemidi_if_deinit, for_sockets, deinit_body, APPLEMIDI_IF_NUM_SOCKETS, State.set,
      State.get, APPLEMIDI_IF_SOCKET_CONTROL, cmd_info, h0, h1] <;>
    omega

/-- C7: `applemidi_if_send_udp_datagram` returns -1 if and only if the handle of the
selected entry is negative, and then issues no call at all; otherwise it returns -2
if and only if `sendto` returns a negative value, and 0 if and only if it does not. -/
theorem send_result_codes (lvl : Nat) (os : OsRet) (ip_addr : ip4) (port : Nat)
    (tx_data : List Nat) (tx_len : Nat) (st : State) :
    ((applemidi_if_send_udp_datagram lvl os ip_addr port tx_data tx_len st).ret = -1
      ↔ (st.get (select_socket st port)).handle < 0) ∧
    ((st.get (select_socket st port)).handle < 0 →
      (applemidi_if_send_udp_datagram lvl os ip_addr port tx_data tx_len st).trace = []) ∧
    (0 ≤ (st.get (select_socket st port)).handle →
      ((applemidi_if_send_udp_datagram lvl os ip_addr port tx_data tx_len st).ret = -2
        ↔ os.ret < 0) ∧
      ((applemidi_if_send_udp_datagram lvl os ip_addr port tx_data tx_len st).ret = 0
        ↔ 0 ≤ os.ret)) := by
  by_cases hh : (st.get (select_socket st port)).handle < 0
  · have hh' : ¬ 0 ≤ (st.get (select_socket st port)).handle := by omega
    simp [applemidi_if_send_udp_datagram, hh, hh']
  · by_cases hr : os.ret < 0
    · have hr' : ¬ 0 ≤ os.ret := by omega
      simp [applemidi_if_send_udp_datagram, hh, hr, hr']
    · have hr' : 0 ≤ os.ret := by omega
      simp [applemidi_if_send_udp_datagram, hh, hr, hr']

/-- C7 (witness): on the table opened on port 5004, a send to port 5005 whose
`sendto` fails returns -2, and the same send after `applemidi_if_deinit` returns -1
without any call. -/
theorem send_result_codes_on_open_and_closed_table :
    (applemidi_if_send_udp_datagram 1 ⟨-1, 118⟩ ⟨192, 168, 1, 10⟩ 5005 [1, 2] 2
      opened_5004).ret = -2 ∧
    (applemidi_if_send_udp_datagram 1 ⟨-1, 118⟩ ⟨192, 168, 1, 10⟩ 5005 [1, 2] 2
      (applemidi_if_deinit opened_5004).state).ret = -1 ∧
    (applemidi_if_send_udp_datagram 1 ⟨-1, 118⟩ ⟨192, 168, 1, 10⟩ 5005 [1, 2] 2
      (applemidi_if_deinit opened_5004).state).trace = [] :=
  ⟨((send_result_codes 1 ⟨-1, 118⟩ ⟨192, 168, 1, 10⟩ 5005 [1, 2] 2 opened_5004).2.2
      (by decide)).1.mpr (by decide),
    (send_result_codes 1 ⟨-1, 118⟩ ⟨192, 168, 1, 10⟩ 5005 [1, 2] 2
      (applemidi_if_deinit opened_5004).state).1.mpr (by decide),
    (send_result_codes 1 ⟨-1, 118⟩ ⟨192, 168, 1, 10⟩ 5005 [1, 2] 2
      (applemidi_if_deinit opened_5004).state).2.1 (by decide)⟩

/-- C8: when the selected entry is open, `applemidi_if_send_udp_datagram` issues
exactly one `sendto`, whatever its result: on the handle of the selected entry, with
the caller's buffer and length, flags 0, and a destination made of the address
family of the selected entry, the caller's port in network byte order (high byte
first) and the caller's four address bytes in order. -/
theorem send_issues_one_sendto (lvl : Nat) (os : OsRet) (ip_addr : ip4) (port : Nat)
    (tx_data : List Nat) (tx_len : Nat) (st : State)
    (hopen : 0 ≤ (st.get (select_socket st port)).handle) :
    sendto_calls (applemidi_if_send_udp_datagram lvl os ip_addr port tx_data tx_len st).trace
      = [Event.sendto (st.get (select_socket st port)).handle tx_data tx_len 0
          ⟨(st.get (select_socket st port)).socket_addr.sin_family, htons port,
            memcpy_ip ip_addr⟩ os.ret] ∧
    bytes_of (memcpy_ip ip_addr)
      = ⟨ip_addr.b0 % 256, ip_addr.b1 % 256, ip_addr.b2 % 256, ip_addr.b3 % 256⟩ ∧
    htons port % 256 = port / 256 % 256 ∧ htons port / 256 = port % 256 := by
  have hh : ¬ (st.get (select_socket st port)).handle < 0 := by omega
  refine ⟨?_, bytes_of_memcpy_ip ip_addr, ?_, ?_⟩
  · by_cases hr : os.ret < 0 <;>
      simp only [applemidi_if_send_udp_datagram, hh, hr, if_false, if_true, sendto_calls,
        tx_socket_addr, List.filter_append] <;>
      split_ifs <;> simp
  · unfold htons
    omega
  · unfold htons
    omega

/-- C8 (witness): a send of `[1, 2, 3]` to 192.168.1.10, port 5004, on the table
opened on port 5004 issues one `sendto` on the Control descriptor 54. -/
theorem send_to_5004_issues_one_sendto :
    sendto_calls (applemidi_if_send_udp_datagram 3 ⟨3, 0⟩ ⟨192, 168, 1, 10⟩ 5004 [1, 2, 3] 3
        opened_5004).trace
      = [Event.sendto 54 [1, 2, 3] 3 0 ⟨2, htons 5004, memcpy_ip ⟨192, 168, 1, 10⟩⟩ 3] :=
  (send_issues_one_sendto 3 ⟨3, 0⟩ ⟨192, 168, 1, 10⟩ 5004 [1, 2, 3] 3 opened_5004
    (by decide)).1

/-- C9: when `recvfrom` on the Control socket fails with an error other than
would-block, the tick issues that one receive and nothing else: no receive on the
Data socket and no handler invocation; when it fails with would-block, the tick
goes on to receive on the Data socket, and hands a datagram received there to the
handler. -/
theorem tick_stops_on_receive_error (c : Consts) (lvl : Nat) (os : Nat → RecvOutcome)
    (st : State) :
    ((os 0).ret < 0 → (os 0).errno ≠ c.EWOULDBLOCK →
      poll_steps (applemidi_if_tick c lvl os st).trace
        = [.receive APPLEMIDI_IF_SOCKET_CONTROL]) ∧
    ((os 0).ret < 0 → (os 0).errno = c.EWOULDBLOCK →
      poll_steps (applemidi_if_tick c lvl os st).trace
        = .receive APPLEMIDI_IF_SOCKET_CONTROL :: .receive APPLEMIDI_IF_SOCKET_DATA ::
            (if (os 1).ret < 0 then [] else [.handler 1])) := by
  rw [poll_steps_tick]
  refine ⟨fun h e => ?_, fun h e => ?_⟩
  · simp [h, e, APPLEMIDI_IF_SOCKET_CONTROL]
  · simp only [h, e, ne_eq, not_true_eq_false, and_false, if_false, if_true,
      APPLEMIDI_IF_SOCKET_CONTROL, APPLEMIDI_IF_SOCKET_DATA]
    split_ifs <;> rfl

/-- C9 (witness): on the table opened on port 5004, a receive error on the Control
socket ends the tick although a datagram is pending on the Data socket, while a
would-block on the Control socket lets that datagram reach the handler. -/
theorem tick_with_control_error_skips_data :
    poll_steps (applemidi_if_tick lwip 1
        (fun i => if i = APPLEMIDI_IF_SOCKET_DATA then note_on else recv_error)
        opened_5004).trace
      = [.receive 0] ∧
    poll_steps (applemidi_if_tick lwip 1
        (fun i => if i = APPLEMIDI_IF_SOCKET_DATA then note_on else would_block)
        opened_5004).trace
      = [.receive 0, .receive 1, .handler 1] :=
  ⟨(tick_stops_on_receive_error lwip 1
      (fun i => if i = APPLEMIDI_IF_SOCKET_DATA then note_on else recv_error)
      opened_5004).1 (by decide) (by decide),
    (tick_stops_on_receive_error lwip 1
      (fun i => if i = APPLEMIDI_IF_SOCKET_DATA then note_on else would_block)
      opened_5004).2 (by decide) (by decide)⟩

/-- C10: in one `applemidi_if_tick` the receive calls and handler invocations form,
in order, a sublist of: receive on Control, handler for Control, receive on Data,
handler for Data; so each role is received from at most once and handed to the
handler at most once, Control before Data. With datagrams pending on the sockets
(`qc` on Control, `qd` on Data) the handler gets exactly the first datagram of each
non-empty queue. -/
theorem tick_polls_each_role_once_in_order (c : Consts) (lvl : Nat) (os : Nat → RecvOutcome)
    (st : State) (qc qd : List Datagram) :
    (poll_steps (applemidi_if_tick c lvl os st).trace).Sublist
      [.receive APPLEMIDI_IF_SOCKET_CONTROL, .handler 0,
        .receive APPLEMIDI_IF_SOCKET_DATA, .handler 1] ∧
    handler_calls 0 (applemidi_if_tick c lvl (pending_os c qc qd) st).trace
      = (qc.head?.map (fun d => Event.parse_udp_datagram (bytes_of d.src.sin_addr)
          (htons d.src.sin_port) d.payload d.payload.length 0)).toList ∧
    handler_calls 1 (applemidi_if_tick c lvl (pending_os c qc qd) st).trace
      = (qd.head?.map (fun d => Event.parse_udp_datagram (bytes_of d.src.sin_addr)
          (htons d.src.sin_port) d.payload d.payload.length 1)).toList := by
  refine ⟨?_, handler_calls_pending c lvl qc qd st⟩
  rw [poll_steps_tick]
  simp only [APPLEMIDI_IF_SOCKET_CONTROL, APPLEMIDI_IF_SOCKET_DATA]
  split_ifs <;> decide

/-! ## Further facts on one tick -/

/-- The table after a tick: the handles are kept; an entry gets the sender address
when its `recvfrom` was issued and succeeded. -/
theorem tick_state (c : Consts) (lvl : Nat) (os : Nat → RecvOutcome) (st : State) :
    (applemidi_if_tick c lvl os st).state =
      ⟨⟨st.control.handle,
          if (os 0).ret < 0 then st.control.socket_addr else (os 0).src⟩,
        ⟨st.data.handle,
          if ((os 0).ret < 0 ∧ (os 0).errno ≠ c.EWOULDBLOCK) ∨ (os 1).ret < 0 then
            st.data.socket_addr
          else (os 1).src⟩⟩ := by
  by_cases h0 : (os 0).ret < 0 <;> by_cases e0 : (os 0).errno = c.EWOULDBLOCK <;>
    by_cases h1 : (os 1).ret < 0 <;> by_cases e1 : (os 1).errno = c.EWOULDBLOCK <;>
    simp [applemidi_if_tick, for_sockets, tick_body, APPLEMIDI_IF_NUM_SOCKETS, State.set,
      State.get, APPLEMIDI_IF_SOCKET_CONTROL, h0, h1, e0, e1]

theorem live_after_append (live : List Int) (a b : List Event) :
    live_after live (a ++ b) = live_after (live_after live a) b := by
  simp [live_after, List.foldl_append]

theorem live_after_keeps (live : List Int) (tr : List Event)
    (h : ∀ e ∈ tr, keeps_sockets e = true) : live_after live tr = live := by
  induction tr generalizing live with
  | nil => rfl
  | cons e rest ih =>
    have he := h e (List.mem_cons_self _ _)
    have hrest : ∀ x ∈ rest, keeps_sockets x = true :=
      fun x hx => h x (List.mem_cons_of_mem _ hx)
    have hstep : track_socket live e = live := by
      cases e <;> first | rfl | exact absurd he (by simp [keeps_sockets])
    simp only [live_after, List.foldl_cons, hstep]
    exact ih live hrest

/-- No descriptor is created or closed by `applemidi_if_send_udp_datagram`. -/
theorem send_keeps_sockets (lvl : Nat) (os : OsRet) (ip_addr : ip4) (port : Nat)
    (tx_data : List Nat) (tx_len : Nat) (st : State) :
    ∀ e ∈ (applemidi_if_send_udp_datagram lvl os ip_addr port tx_data tx_len st).trace,
      keeps_sockets e = true := by
  unfold applemidi_if_send_udp_datagram
  simp only []
  split_ifs <;> simp [keeps_sockets]

/-- No descriptor is created or closed by one iteration of the tick. -/
theorem tick_body_keeps_sockets (c : Consts) (lvl : Nat) (os : Nat → RecvOutcome) (i : Nat)
    (st : State) : ∀ e ∈ (tick_body c lvl os i st).2.1, keeps_sockets e = true := by
  unfold tick_body
  simp only []
  split_ifs <;> simp [keeps_sockets]

/-- No descriptor is created or closed by `applemidi_if_tick`. -/
theorem tick_keeps_sockets (c : Consts) (lvl : Nat) (os : Nat → RecvOutcome) (st : State) :
    ∀ e ∈ (applemidi_if_tick c lvl os st).trace, keeps_sockets e = true := by
  rw [tick_unfold]
  split_ifs
  · intro e he
    rcases List.mem_append.mp he with h | h
    · exact tick_body_keeps_sockets c lvl os 0 st e h
    · exact tick_body_keeps_sockets c lvl os 1 _ e h
  · exact tick_body_keeps_sockets c lvl os 0 st

/-- The outcome of `applemidi_if_deinit`. -/
theorem deinit_outcome (st : State) :
    applemidi_if_deinit st =
      ⟨⟨⟨if 0 ≤ st.control.handle then -1 else st.control.handle, st.control.socket_addr⟩,
          ⟨if 0 ≤ st.data.handle then -1 else st.data.handle, st.data.socket_addr⟩⟩,
        (if 0 ≤ st.control.handle then
            [Event.shutdown st.control.handle 0, Event.close st.control.handle] else [])
          ++ (if 0 ≤ st.data.handle then
            [Event.shutdown st.data.handle 0, Event.close st.data.handle] else []),
        0⟩ := by
  by_cases h0 : 0 ≤ st.control.handle <;> by_cases h1 : 0 ≤ st.data.handle <;>
    simp [applemidi_if_deinit, for_sockets, deinit_body, APPLEMIDI_IF_NUM_SOCKETS, State.set,
      State.get, APPLEMIDI_IF_SOCKET_CONTROL, h0, h1]

theorem sublist_pair (l : List Int) (a b : Int) (h : l.Sublist [a, b]) :
    l = [] ∨ l = [a] ∨ l = [b] ∨ l = [a, b] := by
  cases h with
  | cons _ h1 =>
    cases h1 with
    | cons _ h2 => cases h2; simp
    | cons₂ _ h2 => cases h2; simp
  | cons₂ _ h1 =>
    cases h1 with
    | cons _ h2 => cases h2; simp
    | cons₂ _ h2 => cases h2; simp

/-- After `applemidi_if_deinit` no descriptor is left open, if those open before
were stored in the table. -/
theorem deinit_live (st : State) (live : List Int) (hpos : ∀ fd ∈ live, 0 ≤ fd)
    (hsub : live.Sublist [st.control.handle, st.data.handle]) :
    live_after live (applemidi_if_deinit st).trace = [] := by
  rw [deinit_outcome]
  rcases sublist_pair live _ _ hsub with h | h | h | h <;> subst h
  · split_ifs <;> simp [live_after, track_socket]
  · have h0 : 0 ≤ st.control.handle := hpos _ (by simp)
    simp only [h0, if_true]
    split_ifs <;> simp [live_after, track_socket]
  · have h1 : 0 ≤ st.data.handle := hpos _ (by simp)
    simp only [h1, if_true]
    by_cases h0 : 0 ≤ st.control.handle
    · by_cases he : st.data.handle = st.control.handle
      · simp [live_after, track_socket, h0, he]
      · simp [live_after, track_socket, h0, he, List.erase_cons]
    · simp [live_after, track_socket, h0]
  · have h0 : 0 ≤ st.control.handle := hpos _ (by simp)
    have h1 : 0 ≤ st.data.handle := hpos _ (by simp)
    simp [live_after, track_socket, h0, h1]

/-- After `applemidi_if_init` on a table with no descriptor open, the descriptors
left open are non-negative and stored in the table. -/
theorem init_live (c : Consts) (lvl : Nat) (os : InitOS) (port : Nat) (st : State) :
    (∀ fd ∈ live_after [] (applemidi_if_init c lvl os port st).trace, 0 ≤ fd) ∧
    (live_after [] (applemidi_if_init c lvl os port st).trace).Sublist
      [(applemidi_if_init c lvl os port st).state.control.handle,
        (applemidi_if_init c lvl os port st).state.data.handle] := by
  by_cases h0 : (os.socket 0).ret < 0
  · rw [init_outcome_create0 c lvl os port st h0]
    have h0' : ¬ 0 ≤ (os.socket 0).ret := by omega
    split_ifs <;> simp [live_after, track_socket, h0']
  · by_cases hb0 : (os.bind (init_addr c port 0)).ret < 0
    · rw [init_outcome_bind0 c lvl os port st (by omega) hb0]
      have h0' : 0 ≤ (os.socket 0).ret := by omega
      split_ifs <;> simp [live_after, track_socket, h0']
    · by_cases h1 : (os.socket 1).ret < 0
      · rw [init_outcome_create1 c lvl os port st (by omega) (by omega) h1]
        have h0' : 0 ≤ (os.socket 0).ret := by omega
        have h1' : ¬ 0 ≤ (os.socket 1).ret := by omega
        split_ifs <;> simp [live_after, track_socket, h0', h1']
      · by_cases hb1 : (os.bind (init_addr c port 1)).ret < 0
        · rw [init_outcome_bind1 c lvl os port st (by omega) (by omega) (by omega) hb1]
          have h0' : 0 ≤ (os.socket 0).ret := by omega
          have h1' : 0 ≤ (os.socket 1).ret := by omega
          by_cases he : (os.socket 0).ret = (os.socket 1).ret
          · split_ifs <;> simp [live_after, track_socket, h0', h1', he]
          · split_ifs <;> simp [live_after, track_socket, h0', h1', he, List.erase_cons]
        · rw [init_outcome_ok c lvl os port st (by omega) (by omega) (by omega) (by omega)]
          have h0' : 0 ≤ (os.socket 0).ret := by omega
          have h1' : 0 ≤ (os.socket 1).ret := by omega
          simp [live_after, track_socket, h0', h1']

theorem run_calls_cons (c : Consts) (lvl : Nat) (k : Call) (rest : List Call) (st : State) :
    run_calls c lvl (k :: rest) st = run_calls c lvl rest (run_call c lvl k st).state := rfl

/-- Along a sequence in which init and deinit are paired, the descriptors left open
stay stored in the table. -/
theorem paired_calls_keep_sockets_stored (c : Consts) (lvl : Nat) (calls : List Call) :
    ∀ (st : State) (live : List Int) (may_init : Bool),
      (may_init = true → live = []) → (∀ fd ∈ live, 0 ≤ fd) →
      live.Sublist [st.control.handle, st.data.handle] →
      init_deinit_paired may_init calls = true →
      (live_after live (trace_calls c lvl calls st)).Sublist
        [(run_calls c lvl calls st).control.handle, (run_calls c lvl calls st).data.handle] := by
  induction calls with
  | nil =>
    intro st live may_init _ _ hsub _
    exact hsub
  | cons k rest ih =>
    intro st live may_init hnil hpos hsub hp
    rw [run_calls_cons]
    simp only [trace_calls, live_after_append]
    cases k with
    | init os port =>
      simp only [init_deinit_paired, Bool.and_eq_true] at hp
      have hl := hnil hp.1
      subst hl
      exact ih _ _ false (by simp) (init_live c lvl os port st).1
        (init_live c lvl os port st).2 hp.2
    | deinit =>
      simp only [init_deinit_paired] at hp
      simp only [run_call, deinit_live st live hpos hsub]
      exact ih _ [] true (fun _ => rfl) (by simp) (List.nil_sublist _) hp
    | send os ip_addr port tx_data tx_len =>
      simp only [init_deinit_paired] at hp
      simp only [run_call, send_state,
        live_after_keeps live _ (send_keeps_sockets lvl os ip_addr port tx_data tx_len st)]
      exact ih st live may_init hnil hpos hsub hp
    | tick os =>
      simp only [init_deinit_paired] at hp
      simp only [run_call, live_after_keeps live _ (tick_keeps_sockets c lvl os st)]
      refine ih _ live may_init hnil hpos ?_ hp
      rw [tick_state]
      exact hsub

/-! ## Diagnostic output -/

theorem diagnostics_append (a b : List Event) :
    diagnostics (a ++ b) = diagnostics a ++ diagnostics b := by
  simp [diagnostics]

theorem hex_dumps_append (a b : List Event) :
    hex_dumps (a ++ b) = hex_dumps a ++ hex_dumps b := by
  simp [hex_dumps]

/-- Below level 3 the diagnostic output of one iteration of the tick does not depend
on the bytes received (nor on the table). -/
theorem diagnostics_tick_body (c : Consts) (lvl : Nat) (os1 os2 : Nat → RecvOutcome) (i : Nat)
    (st1 st2 : State) (hl : lvl < 3) (hs : same_but_payload (os1 i) (os2 i)) :
    diagnostics (tick_body c lvl os1 i st1).2.1 = diagnostics (tick_body c lvl os2 i st2).2.1 := by
  obtain ⟨hr, he, ha⟩ := hs
  have h3 : ¬ lvl ≥ 3 := by omega
  simp only [tick_body, hr, he, ha, h3, if_false, List.append_nil]
  split_ifs <;> simp [diagnostics]

/-- The hex dump of one iteration of the tick. -/
theorem hex_dumps_tick_body (c : Consts) (lvl : Nat) (os : Nat → RecvOutcome) (i : Nat)
    (st : State) :
    hex_dumps (tick_body c lvl os i st).2.1 =
      if 3 ≤ lvl ∧ 0 ≤ (os i).ret then [Event.esp_log_buffer_hex (os i).data (os i).ret]
      else [] := by
  by_cases hr : (os i).ret < 0
  · have hr' : ¬ 0 ≤ (os i).ret := by omega
    simp only [tick_body, hr, hr', if_true, and_false, if_false]
    split_ifs <;> simp [hex_dumps]
  · have hr' : 0 ≤ (os i).ret := by omega
    by_cases h3 : 3 ≤ lvl
    · have h3' : lvl ≥ 3 := h3
      simp only [tick_body, hr, hr', h3, h3', if_true, and_self, if_false]
      split_ifs <;> simp [hex_dumps]
    · have h3' : ¬ lvl ≥ 3 := h3
      simp only [tick_body, hr, hr', h3, h3', if_true, false_and, if_false]
      split_ifs <;> simp [hex_dumps]

/-! ## Calls which leave the compared port -/

theorem foldl_match_port_no_control_rx (calls : List Call) (p : Nat)
    (h : ∀ k ∈ calls, no_control_rx k = true) :
    calls.foldl control_match_port p = p := by
  induction calls with
  | nil => rfl
  | cons k rest ih =>
    have hk := h k (List.mem_cons_self _ _)
    have hrest : ∀ x ∈ rest, no_control_rx x = true :=
      fun x hx => h x (List.mem_cons_of_mem _ hx)
    have hstep : control_match_port p k = p := by
      cases k with
      | init os port => exact absurd hk (by simp [no_control_rx])
      | deinit => rfl
      | send os ip_addr port tx_data tx_len => rfl
      | tick os =>
        simp only [no_control_rx, decide_eq_true_eq] at hk
        simp only [control_match_port, hk, if_true]
    rw [List.foldl_cons, hstep]
    exact ih hrest

/-! ## Claims, continued -/

/-- C11: when `recvfrom` reports would-block on both sockets, `applemidi_if_tick`
issues the two receive calls and nothing else (no handler invocation, no output),
returns 0 and leaves the table as it was. -/
theorem tick_without_datagrams_does_nothing (c : Consts) (lvl : Nat) (os : Nat → RecvOutcome)
    (st : State)
    (h0 : (os APPLEMIDI_IF_SOCKET_CONTROL).ret < 0)
    (e0 : (os APPLEMIDI_IF_SOCKET_CONTROL).errno = c.EWOULDBLOCK)
    (h1 : (os APPLEMIDI_IF_SOCKET_DATA).ret < 0)
    (e1 : (os APPLEMIDI_IF_SOCKET_DATA).errno = c.EWOULDBLOCK) :
    (applemidi_if_tick c lvl os st).trace
      = [Event.recvfrom st.control.handle APPLEMIDI_IF_MAX_PACKET_SIZE 0
            APPLEMIDI_IF_SOCKET_CONTROL (os APPLEMIDI_IF_SOCKET_CONTROL),
          Event.recvfrom st.data.handle APPLEMIDI_IF_MAX_PACKET_SIZE 0
            APPLEMIDI_IF_SOCKET_DATA (os APPLEMIDI_IF_SOCKET_DATA)] ∧
    handler_calls APPLEMIDI_IF_SOCKET_CONTROL (applemidi_if_tick c lvl os st).trace = [] ∧
    handler_calls APPLEMIDI_IF_SOCKET_DATA (applemidi_if_tick c lvl os st).trace = [] ∧
    (applemidi_if_tick c lvl os st).ret = 0 ∧
    (applemidi_if_tick c lvl os st).state = st := by
  simp only [APPLEMIDI_IF_SOCKET_CONTROL, APPLEMIDI_IF_SOCKET_DATA] at h0 e0 h1 e1
  simp [applemidi_if_tick, for_sockets, tick_body, APPLEMIDI_IF_NUM_SOCKETS, State.set,
    State.get, APPLEMIDI_IF_SOCKET_CONTROL, APPLEMIDI_IF_SOCKET_DATA, handler_calls,
    h0, h1, e0, e1]

/-- C11 (witness): a tick on the table opened on port 5004 with nothing pending
issues only the two receive calls, returns 0 and leaves the table as it was. -/
theorem tick_on_idle_sockets :
    (applemidi_if_tick lwip 3 (fun _ => would_block) opened_5004).trace
      = [Event.recvfrom 54 1472 0 0 would_block, Event.recvfrom 55 1472 0 1 would_block] ∧
    (applemidi_if_tick lwip 3 (fun _ => would_block) opened_5004).ret = 0 ∧
    (applemidi_if_tick lwip 3 (fun _ => would_block) opened_5004).state = opened_5004 :=
  have h := tick_without_datagrams_does_nothing lwip 3 (fun _ => would_block) opened_5004
    (by decide) (by decide) (by decide) (by decide)
  ⟨h.1, h.2.2.2.1, h.2.2.2.2⟩

/-- C12 (the code at the failing input): whatever `recvfrom` answers,
`applemidi_if_tick` returns 0; so it does on the table opened on port 5004 when the
receive on the Control socket fails with `ENOTCONN`, where it ends the tick after
that one receive. -/
theorem tick_returns_zero_on_receive_error (c : Consts) (lvl : Nat) (os : Nat → RecvOutcome)
    (st : State) :
    (applemidi_if_tick c lvl os st).ret = 0 ∧
    (applemidi_if_tick lwip 1 (fun _ => recv_error) opened_5004).ret = 0 ∧
    poll_steps (applemidi_if_tick lwip 1 (fun _ => recv_error) opened_5004).trace
      = [.receive 0] := by
  refine ⟨?_, by decide, by decide⟩
  rw [tick_unfold]
  split_ifs <;> rfl

/-- C13 (the code at the failing input): both status lines of `cmd_info` follow the
handle of the Control entry; after `applemidi_if_init(5004)` with port 5005 in use
the Data entry is closed (handle -1) and `cmd_info` prints the Data socket as up. -/
theorem cmd_info_data_line_follows_control_handle (st : State) :
    cmd_info st
      = [Event.printf (.control_udp_socket (if 0 ≤ st.control.handle then .up else .down)),
         Event.printf (.data_udp_socket (if 0 ≤ st.control.handle then .up else .down))] ∧
    half_opened_5004.data.handle = -1 ∧
    cmd_info half_opened_5004
      = [Event.printf (.control_udp_socket .up), Event.printf (.data_udp_socket .up)] := by
  refine ⟨?_, by decide, by decide⟩
  simp [cmd_info, State.get, APPLEMIDI_IF_SOCKET_CONTROL]

/-- C14 (as amended): along every sequence of `applemidi_if_init`,
`applemidi_if_deinit`, `applemidi_if_send_udp_datagram` and `applemidi_if_tick` calls
on the initial table in which no init is called again before a deinit, the
descriptors which `socket()` returned and `close()` was not called on form a sublist
of the two stored handles: at most one per role, and each the one stored for its
role. -/
theorem paired_calls_leave_at_most_one_socket_per_role (c : Consts) (lvl : Nat)
    (calls : List Call) (hpaired : init_deinit_paired true calls = true) :
    (open_sockets (trace_calls c lvl calls initial_state)).Sublist
      [(run_calls c lvl calls initial_state).control.handle,
        (run_calls c lvl calls initial_state).data.handle] :=
  paired_calls_keep_sockets_stored c lvl calls initial_state [] true (fun _ => rfl)
    (by simp) (List.nil_sublist _) hpaired

/-- C14 (witness): one round of `udp_task` (init, a tick, a send, deinit) pairs init
and deinit, and the descriptors it leaves open form a sublist of the stored handles,
which are both -1. -/
theorem one_round_leaves_no_socket_open :
    init_deinit_paired true calls_one_round = true ∧
    (open_sockets (trace_calls lwip 1 calls_one_round initial_state)).Sublist [-1, -1] :=
  ⟨by decide,
    paired_calls_leave_at_most_one_socket_per_role lwip 1 calls_one_round (by decide)⟩

/-- C14 (counterexample): after `applemidi_if_init(5004)` and `applemidi_if_init(5006)`
with no deinit between them, the descriptors 54, 55, 56 and 57 are open while the
table stores only 56 and 57. -/
theorem init_twice_leaves_sockets_unstored :
    open_sockets (trace_calls lwip 1 calls_init_twice initial_state) = [54, 55, 56, 57] ∧
    (run_calls lwip 1 calls_init_twice initial_state).control.handle = 56 ∧
    (run_calls lwip 1 calls_init_twice initial_state).data.handle = 57 ∧
    ¬ (open_sockets (trace_calls lwip 1 calls_init_twice initial_state)).Sublist
        [(run_calls lwip 1 calls_init_twice initial_state).control.handle,
          (run_calls lwip 1 calls_init_twice initial_state).data.handle] := by
  decide

/-- C15 (the code at the failing input): `applemidi_if_deinit` calls `shutdown` and
`close` exactly for the entries whose handle is not negative; in the zero-initialised
table, which was never opened, both handles are 0, so it calls `shutdown` and `close`
on descriptor 0 twice and changes both handles to -1. -/
theorem deinit_on_initial_table_closes_descriptor_zero (st : State) :
    close_calls (applemidi_if_deinit st).trace
      = (if 0 ≤ st.control.handle then
            [Event.shutdown st.control.handle 0, Event.close st.control.handle] else [])
          ++ (if 0 ≤ st.data.handle then
            [Event.shutdown st.data.handle 0, Event.close st.data.handle] else []) ∧
    (applemidi_if_deinit initial_state).trace
      = [Event.shutdown 0 0, Event.close 0, Event.shutdown 0 0, Event.close 0] ∧
    (applemidi_if_deinit initial_state).state.control.handle = -1 ∧
    (applemidi_if_deinit initial_state).state.data.handle = -1 ∧
    (applemidi_if_deinit initial_state).state ≠ initial_state := by
  refine ⟨?_, by decide, by decide, by decide, by decide⟩
  rw [deinit_outcome]
  split_ifs <;> simp [close_calls]

/-- C16 (as amended): `applemidi_if_init(port)` binds, as far as it gets, first the
Control socket and then the Data socket, each to the wildcard address with family
`AF_INET`; the Control port is the base port and the Data port the 16-bit sum of the
base port and 1, which is one above the Control port for a base port below 65535 and
0 for the base port 65535. -/
theorem init_binds_base_port_and_16_bit_successor (c : Consts) (lvl : Nat) (os : InitOS)
    (port : Nat) (st : State) :
    bind_addrs (applemidi_if_init c lvl os port st).trace
      = (if (os.socket 0).ret < 0 then []
         else init_addr c port 0 ::
          (if (os.bind (init_addr c port 0)).ret < 0 ∨ (os.socket 1).ret < 0 then []
           else [init_addr c port 1])) ∧
    (init_addr c port 0).sin_family = c.AF_INET ∧
    (init_addr c port 0).sin_addr = INADDR_ANY ∧
    htons (init_addr c port 0).sin_port = port % 65536 ∧
    (init_addr c port 1).sin_family = c.AF_INET ∧
    (init_addr c port 1).sin_addr = INADDR_ANY ∧
    htons (init_addr c port 1).sin_port = (port + 1) % 65536 ∧
    (port % 65536 < 65535 → (port + 1) % 65536 = port % 65536 + 1) ∧
    (port % 65536 = 65535 → (port + 1) % 65536 = 0) := by
  refine ⟨?_, rfl, rfl, htons_htons _ (Nat.mod_lt _ (by norm_num)), rfl, rfl,
    htons_htons _ (Nat.mod_lt _ (by norm_num)), fun h => by omega, fun h => by omega⟩
  by_cases h0 : (os.socket 0).ret < 0
  · rw [init_outcome_create0 c lvl os port st h0]
    split_ifs <;> simp [bind_addrs]
  · by_cases hb0 : (os.bind (init_addr c port 0)).ret < 0
    · rw [init_outcome_bind0 c lvl os port st (by omega) hb0]
      split_ifs <;> first | omega | simp_all [bind_addrs]
    · by_cases h1 : (os.socket 1).ret < 0
      · rw [init_outcome_create1 c lvl os port st (by omega) (by omega) h1]
        split_ifs <;> first | omega | simp_all [bind_addrs]
      · by_cases hb1 : (os.bind (init_addr c port 1)).ret < 0
        · rw [init_outcome_bind1 c lvl os port st (by omega) (by omega) (by omega) hb1]
          split_ifs <;> first | omega | simp_all [bind_addrs]
        · rw [init_outcome_ok c lvl os port st (by omega) (by omega) (by omega) (by omega)]
          simp [bind_addrs, h0, hb0, h1]

/-- C16 (witness): `applemidi_if_init(5004)` with every OS call succeeding binds the
ports 5004 and 5005. -/
theorem init_5004_binds_5004_and_5005 :
    (bind_addrs (applemidi_if_init lwip 1 os_all_ok 5004 initial_state).trace).map
        (fun a => htons a.sin_port) = [5004, 5005] ∧
    (5004 + 1) % 65536 = 5004 % 65536 + 1 :=
  ⟨by
      rw [(init_binds_base_port_and_16_bit_successor lwip 1 os_all_ok 5004 initial_state).1]
      decide,
    (init_binds_base_port_and_16_bit_successor lwip 1 os_all_ok 5004 initial_state).2.2.2.2.2.2.2.1
      (by decide)⟩

/-- C16 (counterexample): `applemidi_if_init(65535)` with every OS call succeeding
binds the Control socket to port 65535 and the Data socket to port 0, which is not
one above the Control port. -/
theorem init_65535_binds_data_to_port_0 :
    (bind_addrs (applemidi_if_init lwip 1 os_all_ok 65535 initial_state).trace).map
        (fun a => htons a.sin_port) = [65535, 0] ∧
    (applemidi_if_init lwip 1 os_all_ok 65535 initial_state).ret = 0 := by
  decide

/-- C17 (as amended): below debug level 3 the diagnostic output of
`applemidi_if_send_udp_datagram` and of `applemidi_if_tick` is the same for any two
runs which differ only in the payload bytes; a payload is dumped exactly when the
level is at least 3 and, in a send, the selected socket is open (the dump precedes
`sendto`, whatever it answers), or, in a tick, a datagram was received. -/
theorem diagnostics_hide_payload_below_level_3 (c : Consts) (lvl : Nat) (os : OsRet)
    (ip_addr : ip4) (port : Nat) (tx_data : List Nat) (tx_len : Nat)
    (rx : Nat → RecvOutcome) (st : State) :
    (lvl < 3 → ∀ tx_data2 : List Nat,
      diagnostics (applemidi_if_send_udp_datagram lvl os ip_addr port tx_data tx_len st).trace
        = diagnostics
            (applemidi_if_send_udp_datagram lvl os ip_addr port tx_data2 tx_len st).trace) ∧
    (lvl < 3 → ∀ rx2 : Nat → RecvOutcome, (∀ i, same_but_payload (rx i) (rx2 i)) →
      diagnostics (applemidi_if_tick c lvl rx st).trace
        = diagnostics (applemidi_if_tick c lvl rx2 st).trace) ∧
    hex_dumps (applemidi_if_send_udp_datagram lvl os ip_addr port tx_data tx_len st).trace
      = (if 3 ≤ lvl ∧ 0 ≤ (st.get (select_socket st port)).handle then
          [Event.esp_log_buffer_hex tx_data tx_len] else []) ∧
    hex_dumps (applemidi_if_tick c lvl rx st).trace
      = (if 3 ≤ lvl ∧ 0 ≤ (rx 0).ret then
          [Event.esp_log_buffer_hex (rx 0).data (rx 0).ret] else [])
        ++ (if 3 ≤ lvl ∧ 0 ≤ (rx 1).ret
              ∧ ¬ ((rx 0).ret < 0 ∧ (rx 0).errno ≠ c.EWOULDBLOCK) then
            [Event.esp_log_buffer_hex (rx 1).data (rx 1).ret] else []) := by
  refine ⟨?_, ?_, ?_, ?_⟩
  · intro hl tx_data2
    have h3 : ¬ lvl ≥ 3 := by omega
    simp only [applemidi_if_send_udp_datagram, h3, if_false, List.append_nil]
    split_ifs <;> simp [diagnostics]
  · intro hl rx2 hs
    rw [tick_unfold, tick_unfold]
    have hc : (tick_body c lvl rx 0 st).2.2 = none ↔ (tick_body c lvl rx2 0 st).2.2 = none := by
      rw [tick_body_continues, tick_body_continues, (hs 0).1, (hs 0).2.1]
    by_cases h : (tick_body c lvl rx 0 st).2.2 = none
    · rw [if_pos h, if_pos (hc.mp h)]
      simp only [diagnostics_append]
      rw [diagnostics_tick_body c lvl rx rx2 0 st st hl (hs 0),
        diagnostics_tick_body c lvl rx rx2 1 _ (tick_body c lvl rx2 0 st).1 hl (hs 1)]
    · rw [if_neg h, if_neg (fun h2 => h (hc.mpr h2))]
      exact diagnostics_tick_body c lvl rx rx2 0 st st hl (hs 0)
  · by_cases hh : (st.get (select_socket st port)).handle < 0
    · have hh' : ¬ 0 ≤ (st.get (select_socket st port)).handle := by omega
      simp [applemidi_if_send_udp_datagram, hh, hh', hex_dumps]
    · have hh' : 0 ≤ (st.get (select_socket st port)).handle := by omega
      by_cases h3 : 3 ≤ lvl
      · have h3' : lvl ≥ 3 := h3
        simp only [applemidi_if_send_udp_datagram, hh, hh', h3, h3', if_false, if_true,
          and_self]
        split_ifs <;> simp [hex_dumps]
      · have h3' : ¬ lvl ≥ 3 := h3
        simp only [applemidi_if_send_udp_datagram, hh, hh', h3, h3', if_false, if_true,
          false_and]
        split_ifs <;> simp [hex_dumps]
  · rw [tick_unfold]
    by_cases hb : (rx 0).ret < 0 ∧ (rx 0).errno ≠ c.EWOULDBLOCK
    · have hc : ¬ (tick_body c lvl rx 0 st).2.2 = none := by
        rw [tick_body_continues]
        exact not_not.mpr hb
      have h0 : ¬ 0 ≤ (rx 0).ret := by omega
      simp [hc, hex_dumps_tick_body, hb, h0]
    · have hc : (tick_body c lvl rx 0 st).2.2 = none := by
        rw [tick_body_continues]
        exact hb
      simp only [hc, if_true, hex_dumps_append, hex_dumps_tick_body, hb, not_false_eq_true,
        and_true]

/-- C17 (witness): at level 2 a send on the table opened on port 5004 gives the same
diagnostic output for the payloads `[1, 2, 3]` and `[7, 8, 9]`. -/
theorem send_diagnostics_same_for_two_payloads :
    diagnostics (applemidi_if_send_udp_datagram 2 send_error ⟨192, 168, 1, 10⟩ 5005
        [1, 2, 3] 3 opened_5004).trace
      = diagnostics (applemidi_if_send_udp_datagram 2 send_error ⟨192, 168, 1, 10⟩ 5005
        [7, 8, 9] 3 opened_5004).trace :=
  (diagnostics_hide_payload_below_level_3 lwip 2 send_error ⟨192, 168, 1, 10⟩ 5005 [1, 2, 3] 3
    (fun _ => would_block) opened_5004).1 (by decide) [7, 8, 9]

/-- C17 (counterexample): at level 3 a send on the table opened on port 5004 whose
`sendto` fails returns -2, so no datagram is sent, and yet the payload is dumped. -/
theorem failed_send_dumps_payload :
    (applemidi_if_send_udp_datagram 3 send_error ⟨192, 168, 1, 10⟩ 5005 [1, 2, 3] 3
        opened_5004).ret = -2 ∧
    hex_dumps (applemidi_if_send_udp_datagram 3 send_error ⟨192, 168, 1, 10⟩ 5005 [1, 2, 3] 3
        opened_5004).trace = [Event.esp_log_buffer_hex [1, 2, 3] 3] := by
  decide

/-- C19: a successful `recvfrom` of `applemidi_if_tick` stores the sender's address
in the `socket_addr` of the entry received on; after a tick which received a
datagram on the Control socket a send selects the Control socket exactly for the
port of that sender; after `applemidi_if_init(port)` and any calls other than init
in which no datagram is received on the Control socket, it selects the Control
socket exactly for the base port. -/
theorem tick_stores_sender_and_send_follows_it (c : Consts) (lvl : Nat)
    (os : Nat → RecvOutcome) (st : State) (p : Nat) :
    (0 ≤ (os 0).ret → (applemidi_if_tick c lvl os st).state.control.socket_addr = (os 0).src) ∧
    (¬ ((os 0).ret < 0 ∧ (os 0).errno ≠ c.EWOULDBLOCK) → 0 ≤ (os 1).ret →
      (applemidi_if_tick c lvl os st).state.data.socket_addr = (os 1).src) ∧
    (0 ≤ (os 0).ret →
      (select_socket (applemidi_if_tick c lvl os st).state p = APPLEMIDI_IF_SOCKET_CONTROL
        ↔ p = htons (os 0).src.sin_port)) ∧
    (∀ (ios : InitOS) (port : Nat) (calls : List Call),
      (∀ k ∈ calls, no_control_rx k = true) →
      (select_socket (run_calls c lvl (Call.init ios port :: calls) st) p
          = APPLEMIDI_IF_SOCKET_CONTROL
        ↔ p = port % 65536)) := by
  refine ⟨?_, ?_, ?_, ?_⟩
  · intro h
    have h' : ¬ (os 0).ret < 0 := by omega
    rw [tick_state]
    simp [h']
  · intro hb h
    have h' : ¬ (os 1).ret < 0 := by omega
    rw [tick_state]
    simp only [hb, h', or_self, if_false]
  · intro h
    have h' : ¬ (os 0).ret < 0 := by omega
    rw [tick_state]
    simp [select_socket, State.get, APPLEMIDI_IF_SOCKET_CONTROL, APPLEMIDI_IF_SOCKET_DATA, h']
  · intro ios port calls hcalls
    have hp : htons (run_calls c lvl (Call.init ios port :: calls) st).control.socket_addr.sin_port
        = port % 65536 := by
      rw [run_calls_cons, run_calls_match_port, foldl_match_port_no_control_rx _ _ hcalls]
      simp only [run_call, init_control_port]
      exact htons_htons _ (Nat.mod_lt _ (by norm_num))
    simp only [select_socket, State.get, APPLEMIDI_IF_SOCKET_CONTROL, APPLEMIDI_IF_SOCKET_DATA,
      if_true, hp]
    split_ifs with h <;> simp [h]

/-- C19 (witness): after `applemidi_if_init(5004)` a send to port 5004 selects the
Control socket; after a tick which receives a datagram from port 6000 on the Control
socket, a send selects the Control socket for port 6000. -/
theorem send_follows_last_control_sender :
    select_socket (run_calls lwip 1 [Call.init os_all_ok 5004] initial_state) 5004
        = APPLEMIDI_IF_SOCKET_CONTROL ∧
    select_socket
        (applemidi_if_tick lwip 1
          (fun i => if i = APPLEMIDI_IF_SOCKET_CONTROL then from_port_6000 else would_block)
          opened_5004).state 6000
        = APPLEMIDI_IF_SOCKET_CONTROL :=
  ⟨((tick_stores_sender_and_send_follows_it lwip 1 (fun _ => would_block) initial_state
      5004).2.2.2 os_all_ok 5004 [] (by simp)).mpr (by decide),
    ((tick_stores_sender_and_send_follows_it lwip 1
      (fun i => if i = APPLEMIDI_IF_SOCKET_CONTROL then from_port_6000 else would_block)
      opened_5004 6000).2.2.1 (by decide)).mpr (by decide)⟩

/-- C20: whatever the table, the destination, the payload and the answer of `sendto`,
`applemidi_if_send_udp_datagram` returns the table as it was: both handles and both
stored addresses are unchanged, whether it returns -1, -2 or 0. -/
theorem send_leaves_table_unchanged (lvl : Nat) (os : OsRet) (ip_addr : ip4) (port : Nat)
    (tx_data : List Nat) (tx_len : Nat) (st : State) :
    (applemidi_if_send_udp_datagram lvl os ip_addr port tx_data tx_len st).state = st ∧
    (applemidi_if_send_udp_datagram lvl os ip_addr port tx_data tx_len st).state.control.handle
      = st.control.handle ∧
    (applemidi_if_send_udp_datagram lvl os ip_addr port tx_data tx_len st).state.data.handle
      = st.data.handle ∧
    (applemidi_if_send_udp_datagram lvl os ip_addr port tx_data tx_len st).state.control.socket_addr
      = st.control.socket_addr ∧
    (applemidi_if_send_udp_datagram lvl os ip_addr port tx_data tx_len st).state.data.socket_addr
      = st.data.socket_addr ∧
    ((applemidi_if_send_udp_datagram lvl os ip_addr port tx_data tx_len st).ret = -1 ∨
      (applemidi_if_send_udp_datagram lvl os ip_addr port tx_data tx_len st).ret = -2 ∨
      (applemidi_if_send_udp_datagram lvl os ip_addr port tx_data tx_len st).ret = 0) := by
  rw [send_state]
  refine ⟨rfl, rfl, rfl, rfl, rfl, ?_⟩
  unfold applemidi_if_send_udp_datagram
  simp only []
  split_ifs <;> simp

/-! ## Sends on an open entry -/

/-- When the selected entry is open, `applemidi_if_send_udp_datagram` does not return
-1 and issues one `sendto` on the handle of that entry. -/
theorem send_on_open_entry (lvl : Nat) (os : OsRet) (ip_addr : ip4) (port : Nat)
    (tx_data : List Nat) (tx_len : Nat) (st : State)
    (hopen : 0 ≤ (st.get (select_socket st port)).handle) :
    (applemidi_if_send_udp_datagram lvl os ip_addr port tx_data tx_len st).ret ≠ -1 ∧
    sendto_calls (applemidi_if_send_udp_datagram lvl os ip_addr port tx_data tx_len st).trace
      = [Event.sendto (st.get (select_socket st port)).handle tx_data tx_len 0
          ⟨(st.get (select_socket st port)).socket_addr.sin_family, htons port,
            memcpy_ip ip_addr⟩ os.ret] := by
  have hh : ¬ (st.get (select_socket st port)).handle < 0 := by omega
  by_cases hr : os.ret < 0 <;>
    simp only [applemidi_if_send_udp_datagram, hh, hr, if_false, if_true, sendto_calls,
      tx_socket_addr, List.filter_append] <;>
    split_ifs <;> simp

/-- A table whose Control entry is closed and whose Data entry is the zero-initialised
one: a send which selects the Data socket issues `sendto` on descriptor 0, and
`applemidi_if_deinit` closes descriptor 0 once. -/
theorem data_entry_zero_counts_as_open (lvl : Nat) (sos : OsRet) (ip_addr : ip4) (p : Nat)
    (tx_data : List Nat) (tx_len : Nat) (st : State) (hd : st.data = zero_socket)
    (hc : st.control.handle < 0) :
    (p ≠ htons st.control.socket_addr.sin_port →
      (applemidi_if_send_udp_datagram lvl sos ip_addr p tx_data tx_len st).ret ≠ -1 ∧
      sendto_calls (applemidi_if_send_udp_datagram lvl sos ip_addr p tx_data tx_len st).trace
        = [Event.sendto 0 tx_data tx_len 0 ⟨0, htons p, memcpy_ip ip_addr⟩ sos.ret]) ∧
    (applemidi_if_deinit st).trace = [Event.shutdown 0 0, Event.close 0] := by
  refine ⟨fun hne => ?_, ?_⟩
  · have hsel : st.get (select_socket st p) = zero_socket := by
      simp [select_socket, State.get, APPLEMIDI_IF_SOCKET_CONTROL, APPLEMIDI_IF_SOCKET_DATA,
        hne, hd]
    have h := send_on_open_entry lvl sos ip_addr p tx_data tx_len st
      (by rw [hsel]; decide)
    rw [hsel] at h
    exact h
  · rw [deinit_outcome]
    have hc' : ¬ 0 ≤ st.control.handle := by omega
    simp [hc', hd, zero_socket]

/-! ## Claims, concluded -/

/-- C21 (the parts of the claim which hold): in the zero-initialised table both
handles are 0 and count as open: `cmd_info` prints both sockets as up,
`applemidi_if_send_udp_datagram` does not return -1 but issues `sendto` on
descriptor 0, and `applemidi_if_deinit` calls `shutdown` and `close` on descriptor 0
for both roles. After an `applemidi_if_init` on that table which fails on the
Control role, the Data entry is untouched, with handle 0: a send which selects the
Data socket issues `sendto` on descriptor 0, and deinit calls `shutdown` and `close`
on descriptor 0 for the Data role only. -/
theorem zero_initialised_handles_count_as_open (c : Consts) (lvl : Nat) (ios : InitOS)
    (port : Nat) (sos : OsRet) (ip_addr : ip4) (p : Nat) (tx_data : List Nat) (tx_len : Nat) :
    initial_state.control.handle = 0 ∧ initial_state.data.handle = 0 ∧
    is_open initial_state.control = true ∧ is_open initial_state.data = true ∧
    cmd_info initial_state
      = [Event.printf (.control_udp_socket .up), Event.printf (.data_udp_socket .up)] ∧
    (applemidi_if_send_udp_datagram lvl sos ip_addr p tx_data tx_len initial_state).ret ≠ -1 ∧
    sendto_calls
        (applemidi_if_send_udp_datagram lvl sos ip_addr p tx_data tx_len initial_state).trace
      = [Event.sendto 0 tx_data tx_len 0 ⟨0, htons p, memcpy_ip ip_addr⟩ sos.ret] ∧
    (applemidi_if_deinit initial_state).trace
      = [Event.shutdown 0 0, Event.close 0, Event.shutdown 0 0, Event.close 0] ∧
    ((ios.socket 0).ret < 0 ∨ (ios.bind (init_addr c port 0)).ret < 0 →
      (applemidi_if_init c lvl ios port initial_state).ret < 0 ∧
      (applemidi_if_init c lvl ios port initial_state).state.control.handle < 0 ∧
      (applemidi_if_init c lvl ios port initial_state).state.data = zero_socket ∧
      is_open (applemidi_if_init c lvl ios port initial_state).state.data = true ∧
      (p ≠ port % 65536 →
        (applemidi_if_send_udp_datagram lvl sos ip_addr p tx_data tx_len
            (applemidi_if_init c lvl ios port initial_state).state).ret ≠ -1 ∧
        sendto_calls
            (applemidi_if_send_udp_datagram lvl sos ip_addr p tx_data tx_len
              (applemidi_if_init c lvl ios port initial_state).state).trace
          = [Event.sendto 0 tx_data tx_len 0 ⟨0, htons p, memcpy_ip ip_addr⟩ sos.ret]) ∧
      (applemidi_if_deinit (applemidi_if_init c lvl ios port initial_state).state).trace
        = [Event.shutdown 0 0, Event.close 0]) := by
  have hsel0 : initial_state.get (select_socket initial_state p) = zero_socket := by
    unfold select_socket State.get initial_state
    split_ifs <;> rfl
  have hsend := send_on_open_entry lvl sos ip_addr p tx_data tx_len initial_state
    (by rw [hsel0]; decide)
  rw [hsel0] at hsend
  refine ⟨rfl, rfl, by decide, by decide, by decide, hsend.1, hsend.2, by decide, ?_⟩
  intro hfail
  have hport : htons (applemidi_if_init c lvl ios port initial_state).state.control.socket_addr.sin_port
      = port % 65536 := by
    rw [init_control_port]
    exact htons_htons _ (Nat.mod_lt _ (by norm_num))
  have key : (applemidi_if_init c lvl ios port initial_state).ret < 0 ∧
      (applemidi_if_init c lvl ios port initial_state).state.control.handle < 0 ∧
      (applemidi_if_init c lvl ios port initial_state).state.data = zero_socket := by
    by_cases h0 : (ios.socket 0).ret < 0
    · rw [init_outcome_create0 c lvl ios port initial_state h0]
      exact ⟨by simp, h0, rfl⟩
    · have hb0 : (ios.bind (init_addr c port 0)).ret < 0 := by
        rcases hfail with h | h
        · exact absurd h h0
        · exact h
      rw [init_outcome_bind0 c lvl ios port initial_state (by omega) hb0]
      exact ⟨by simp, by simp, rfl⟩
  have hd := data_entry_zero_counts_as_open lvl sos ip_addr p tx_data tx_len
    (applemidi_if_init c lvl ios port initial_state).state key.2.2 key.2.1
  rw [hport] at hd
  refine ⟨key.1, key.2.1, key.2.2, ?_, hd.1, hd.2⟩
  rw [key.2.2]
  decide

/-- C21 (the parts which hold, at a concrete input): after `applemidi_if_init(5004)`
on the initial table with the creation of the Control socket failing, the Data
handle is still 0, a send to port 5005 issues `sendto` on descriptor 0, and deinit
closes descriptor 0. -/
theorem data_entry_after_failed_control_init :
    control_failed_5004.data.handle = 0 ∧
    sendto_calls
        (applemidi_if_send_udp_datagram 1 ⟨3, 0⟩ ⟨192, 168, 1, 10⟩ 5005 [1, 2, 3] 3
          control_failed_5004).trace
      = [Event.sendto 0 [1, 2, 3] 3 0 ⟨0, htons 5005, memcpy_ip ⟨192, 168, 1, 10⟩⟩ 3] ∧
    (applemidi_if_deinit control_failed_5004).trace = [Event.shutdown 0 0, Event.close 0] :=
  have h := (zero_initialised_handles_count_as_open lwip 1 os_no_socket 5004 ⟨3, 0⟩
    ⟨192, 168, 1, 10⟩ 5005 [1, 2, 3] 3).2.2.2.2.2.2.2.2 (Or.inl (by decide))
  ⟨congrArg applemidi_if_socket_t.handle h.2.2.1, (h.2.2.2.2.1 (by decide)).2, h.2.2.2.2.2⟩

/-- C21 (the code at the failing input): after `applemidi_if_init(5004)` on the initial
table with the creation of the Control socket failing, the Data handle is 0, which
counts as open, and `cmd_info` prints the Data socket as down, because its Data
line follows the handle of the Control entry. -/
theorem status_after_failed_control_init_says_data_down :
    (applemidi_if_init lwip 1 os_no_socket 5004 initial_state).ret = -1 ∧
    control_failed_5004.data.handle = 0 ∧
    is_open control_failed_5004.data = true ∧
    cmd_info control_failed_5004
      = [Event.printf (.control_udp_socket .down), Event.printf (.data_udp_socket .down)] := by
  decide


/-- C22: when the arguments parse, `cmd_start_session` returns 1 without calling
`applemidi_start_session` if and only if a given `--port` is outside 0..65535, or a
given `--peer_port` is outside 1..`APPLEMIDI_MAX_PEERS`-1, or no `--peer_port` is
given and `applemidi_search_free_port` returns a negative value; otherwise it calls
`applemidi_start_session` exactly once, with the chosen peer port, the four bytes of
the parsed address and the control port (5004 when `--port` is omitted), and returns
0 whatever status that call reports. -/
theorem cmd_start_session_refuses_or_starts (env : ConsoleEnv) (args : start_session_args)
    (hparse : env.nerrors = 0) :
    (((cmd_start_session env args).ret = 1
        ∧ start_session_calls (cmd_start_session env args).trace = [])
      ↔ start_session_refused env args) ∧
    (¬ start_session_refused env args →
      start_session_calls (cmd_start_session env args).trace
        = [CmdEvent.applemidi_start_session (chosen_peer_port env args)
            (bytes_of (env.inet_addr args.ip_sval)) (chosen_control_port args)
            (env.applemidi_start_session (chosen_peer_port env args)
              (bytes_of (env.inet_addr args.ip_sval)) (chosen_control_port args))] ∧
      (cmd_start_session env args).ret = 0) := by
  by_cases hc : args.control_port_count = 0 <;>
    by_cases hp : args.peer_port_count = 0 <;>
    by_cases hcv : args.control_port_ival < 0 ∨ args.control_port_ival ≥ 65536 <;>
    by_cases hpv : args.peer_port_ival < 1 ∨ args.peer_port_ival ≥ env.APPLEMIDI_MAX_PEERS <;>
    by_cases hs : env.applemidi_search_free_port < 0 <;>
    simp only [cmd_start_session, start_session_peer_port, start_session_call,
      start_session_refused, chosen_peer_port, chosen_control_port, start_session_calls,
      hparse, hc, hp, hcv, hpv, hs, ne_eq, not_true_eq_false, not_false_eq_true, if_true,
      if_false, true_and, false_and, and_true, and_false, or_false, false_or, or_true,
      true_or] <;>
    (try split_ifs) <;> (try simp) <;> (try omega)


/-- C22 (witness): with only the address given, peer port 2 free and
`applemidi_start_session` reporting failure, the command calls it once with peer port
2, the address 192.168.1.10 and control port 5004, and returns 0; with `--port 70000`
it returns 1 without calling it. -/
theorem start_session_with_ip_only_and_with_port_70000 :
    start_session_calls (cmd_start_session console_failing_start args_ip_only).trace
      = [CmdEvent.applemidi_start_session 2 ⟨192, 168, 1, 10⟩ 5004 (-1)] ∧
    (cmd_start_session console_failing_start args_ip_only).ret = 0 ∧
    (cmd_start_session console_failing_start args_port_70000).ret = 1 ∧
    start_session_calls (cmd_start_session console_failing_start args_port_70000).trace = [] :=
  have h1 := (cmd_start_session_refuses_or_starts console_failing_start args_ip_only rfl).2
    (by unfold start_session_refused; decide)
  have h2 := (cmd_start_session_refuses_or_starts console_failing_start args_port_70000 rfl).1.mpr
    (by unfold start_session_refused; decide)
  ⟨h1.1, h1.2, h2.1, h2.2⟩

end AppleMidiIf
